import Mathlib

/-
Verification of the document-lifecycle core of the Mudhro billing backend:
the artifact store client, the expense attach/replace-artifact protocol
(routes/expense router), the invoice record store (invoiceService), and the
batch milestone invoice processor (milestoneInvoiceService).  Each definition
is a shallow embedding of the corresponding TypeScript function; fault
injection parameters model the failure of individual store calls.
-/

set_option autoImplicit false
set_option maxRecDepth 10000

namespace Mudhro

/-! ## Artifact store -/

/-- Paths in the artifact store, mirroring the string convention
`Expense/Uploaded_Documents/{userId}/{fileName}`,
`Expense/Generated_pdfs/{userId}/{fileName}` and
`Invoices/{userId}/{fileName}`.  The path is deterministic from the document
kind, category, owner id and file name, so handlers reconstruct it without a
lookup. -/
inductive BlobPath where
  | expenseUploaded (userId : Nat) (fileName : String)
  | expenseGenerated (userId : Nat) (fileName : String)
  | invoices (userId : Nat) (fileName : String)
deriving DecidableEq

/-- Modelled from the spec: the Artifact Store (BlobStorageService, not under
src/) holds raw bytes keyed by path; object contents are modelled as numeric
tokens.  An object is fully present or absent, never partial. -/
abbrev BlobStore := List (BlobPath × Nat)

/-- Removal of every entry stored at a path (helper shared by upload, which
overwrites, and delete). -/
def blobErase : BlobStore → BlobPath → BlobStore
  | [], _ => []
  | e :: tl, p => if e.1 = p then blobErase tl p else e :: blobErase tl p

/-- Modelled from the spec: `BlobStorageService.uploadFile` writes the object
at the derived path, replacing any object already stored there. -/
def blobPut (store : BlobStore) (p : BlobPath) (content : Nat) : BlobStore :=
  (p, content) :: blobErase store p

/-- Modelled from the spec: `BlobStorageService.deleteFile` removes the object
at the path; deleting a nonexistent path is not an error (idempotent,
swallowed), so the operation is total. -/
def blobDelete (store : BlobStore) (p : BlobPath) : BlobStore :=
  blobErase store p

/-- Modelled from the spec: lookup of the object stored at a path
(`BlobStorageService.downloadFile`, returning the bytes when present). -/
def blobGet : BlobStore → BlobPath → Option Nat
  | [], _ => none
  | e :: tl, p => if e.1 = p then some e.2 else blobGet tl p

theorem blobGet_blobErase_self (p : BlobPath) : ∀ store : BlobStore,
    blobGet (blobErase store p) p = none := by
  intro store
  induction store with
  | nil => rfl
  | cons e tl ih =>
    by_cases h : e.1 = p
    · simpa [blobErase, h] using ih
    · simpa [blobErase, blobGet, h] using ih

theorem blobGet_blobErase_ne (p q : BlobPath) (h : q ≠ p) :
    ∀ store : BlobStore, blobGet (blobErase store p) q = blobGet store q := by
  intro store
  induction store with
  | nil => rfl
  | cons e tl ih =>
    have h3 : ¬(p = q) := fun hh => h hh.symm
    by_cases h1 : e.1 = p
    · have h2 : ¬(e.1 = q) := by rw [h1]; exact h3
      simpa [blobErase, blobGet, h1, h2, h3] using ih
    · by_cases h2 : e.1 = q
      · simp [blobErase, blobGet, h1, h2, h, h3]
      · simpa [blobErase, blobGet, h1, h2, h3] using ih

theorem blobGet_blobPut_self (store : BlobStore) (p : BlobPath) (c : Nat) :
    blobGet (blobPut store p c) p = some c := by
  simp [blobGet, blobPut]

theorem blobGet_blobPut_ne (store : BlobStore) (p q : BlobPath) (c : Nat)
    (h : q ≠ p) : blobGet (blobPut store p c) q = blobGet store q := by
  have h2 : ¬((p, c).1 = q) := fun hh => h hh.symm
  simp only [blobPut, blobGet, h2, if_neg h2]
  exact blobGet_blobErase_ne p q h store

theorem blobGet_blobDelete_self (store : BlobStore) (p : BlobPath) :
    blobGet (blobDelete store p) p = none :=
  blobGet_blobErase_self p store

theorem blobGet_blobDelete_ne (store : BlobStore) (p q : BlobPath)
    (h : q ≠ p) : blobGet (blobDelete store p) q = blobGet store q :=
  blobGet_blobErase_ne p q h store

/-! ## Expense records and the attach/replace-artifact protocol

The two handlers live in the expense router (src/unnamed/part_000).  Both run
after a successful `getExpenseById(expenseId, req.user.userId)`, so the
expense held in the state belongs to the authenticated user. -/

/-- The expense record fields involved in the artifact protocol.  The full
record (amounts, dates, ...) is irrelevant to the attach/replace handlers. -/
structure Expense where
  id : Nat
  userId : Nat
  billNumber : Option String
  attachmentFileName : Option String
  expenseFileName : Option String
deriving DecidableEq

/-- The pair of stores the protocol has to keep consistent. -/
structure ExpenseState where
  expense : Expense
  blobs : BlobStore
deriving DecidableEq

/-- Response surfaced by a handler: a 200 with the new file name, or the
error passed to `next(error)`. -/
inductive HandlerResponse where
  | ok (fileName : String)
  | err (message : String)
deriving DecidableEq

/-- Outcome of a handler run: the final state of both stores and the
response surfaced to the caller. -/
structure ExpenseOutcome where
  state : ExpenseState
  response : HandlerResponse
deriving DecidableEq

/-- File name computed by the attachment handler:
`{billNumber or BILL-id}_{Date.now()}{ext}` (part_000 line 347); `now` is the
millisecond timestamp and `ext` the extension derived from the uploaded
file. -/
def attachmentFileNameFor (e : Expense) (now : Nat) (ext : String) : String :=
  (e.billNumber.getD ("BILL-" ++ toString e.id)) ++ "_" ++ toString now ++ ext

/-- Path the attachment handler uploads to (part_000 lines 350-358). -/
def attachmentUploadPath (e : Expense) (now : Nat) (ext : String) : BlobPath :=
  BlobPath.expenseUploaded e.userId (attachmentFileNameFor e now ext)

/-- File name computed by the PDF handler (part_000 lines 425-427): the bill
number itself when it already ends in `.pdf`, otherwise the bill number (or
`BILL-id`) with `.pdf` appended.  No timestamp is involved. -/
def pdfFileNameFor (e : Expense) : String :=
  match e.billNumber with
  | some bn => if bn.endsWith ".pdf" then bn else bn ++ ".pdf"
  | none => "BILL-" ++ toString e.id ++ ".pdf"

/-- Path the PDF handler uploads to (part_000 lines 430-438). -/
def pdfUploadPath (e : Expense) : BlobPath :=
  BlobPath.expenseGenerated e.userId (pdfFileNameFor e)

/-- `POST /api/expenses/:id/attachment` (part_000 lines 342-380), from the
point where the expense has been fetched and the file validated:
upload the new bytes, delete the old attachment object if one exists, then
patch the record; if the patch fails, delete the newly uploaded object and
surface the error.  `patchOk` injects the success or failure of the record
patch (`updateExpenseAttachmentFilename`, whose body is not under src/ and is
modelled from the spec as setting the attachment-filename field). -/
def postAttachment (st : ExpenseState) (content now : Nat) (ext : String)
    (patchOk : Bool) : ExpenseOutcome :=
  let e := st.expense
  let fileName := attachmentFileNameFor e now ext
  let blobPath := attachmentUploadPath e now ext
  let blobs1 := blobPut st.blobs blobPath content
  let blobs2 :=
    match e.attachmentFileName with
    | some old => blobDelete blobs1 (BlobPath.expenseUploaded e.userId old)
    | none => blobs1
  match patchOk with
  | true =>
    { state := { expense := { e with attachmentFileName := some fileName },
                 blobs := blobs2 },
      response := HandlerResponse.ok fileName }
  | false =>
    { state := { expense := e, blobs := blobDelete blobs2 blobPath },
      response := HandlerResponse.err "Failed to update expense attachment filename" }

/-- `POST /api/expenses/:id/pdf` (part_000 lines 421-463), from the point
where the expense has been fetched and the file validated: upload the new
bytes, delete the old PDF object if one exists under a different name, then
patch the record; if the patch fails, delete the newly uploaded object and
surface the error.  `patchOk` injects the success or failure of the record
patch (`updateExpensePdfFilename`, not under src/, modelled from the spec as
setting the expense-filename field). -/
def postPdf (st : ExpenseState) (content : Nat) (patchOk : Bool) :
    ExpenseOutcome :=
  let e := st.expense
  let fileName := pdfFileNameFor e
  let blobPath := pdfUploadPath e
  let blobs1 := blobPut st.blobs blobPath content
  let blobs2 :=
    match e.expenseFileName with
    | some old =>
        if old = fileName then blobs1
        else blobDelete blobs1 (BlobPath.expenseGenerated e.userId old)
    | none => blobs1
  match patchOk with
  | true =>
    { state := { expense := { e with expenseFileName := some fileName },
                 blobs := blobs2 },
      response := HandlerResponse.ok fileName }
  | false =>
    { state := { expense := e, blobs := blobDelete blobs2 blobPath },
      response := HandlerResponse.err "Failed to update expense PDF filename" }

/-- The attachment pointer of the record dangles: the record names an
attachment file but no object exists at the derived path. -/
def attachmentPointerDangling (st : ExpenseState) : Bool :=
  match st.expense.attachmentFileName with
  | some f =>
      (blobGet st.blobs (BlobPath.expenseUploaded st.expense.userId f)).isNone
  | none => false

/-- The generated-PDF pointer of the record dangles. -/
def pdfPointerDangling (st : ExpenseState) : Bool :=
  match st.expense.expenseFileName with
  | some f =>
      (blobGet st.blobs (BlobPath.expenseGenerated st.expense.userId f)).isNone
  | none => false


/-! ## Claims C1, C6, C8: the attach/replace-artifact protocol -/

/-- Concrete expense used to exercise the attachment handler: it already has
an attachment on record, and the corresponding object is in the store. -/
def c1State : ExpenseState :=
  { expense := { id := 1, userId := 2, billNumber := some "B1",
                 attachmentFileName := some "old.png",
                 expenseFileName := none },
    blobs := [(BlobPath.expenseUploaded 2 "old.png", 7)] }

/-- C1: the claim that the old artifact object is deleted only after the
record patch succeeds, so the artifact pointer never dangles, is false at a
concrete input: the handler deletes the old object before patching, so when
the patch fails the record still names the old attachment but no object
exists at its path (a dangling reference). -/
theorem c1_counterexample :
    (postAttachment c1State 9 5 ".png" false).state.expense.attachmentFileName
        = some "old.png"
    ∧ attachmentPointerDangling (postAttachment c1State 9 5 ".png" false).state
        = true := by
  decide

/-- Upload paths for distinct file names of the same owner are distinct. -/
theorem expenseUploaded_path_ne (uid : Nat) (f g : String) (h : f ≠ g) :
    BlobPath.expenseUploaded uid f ≠ BlobPath.expenseUploaded uid g := by
  intro hc
  exact h (by injection hc)

/-- Generated-pdf paths for distinct file names of the same owner are
distinct. -/
theorem expenseGenerated_path_ne (uid : Nat) (f g : String) (h : f ≠ g) :
    BlobPath.expenseGenerated uid f ≠ BlobPath.expenseGenerated uid g := by
  intro hc
  exact h (by injection hc)

/-- C1 (amended): in both attach/replace handlers the old artifact object is
deleted after the new upload but before the record patch.  On a fully
successful run the pointer resolves to the newly uploaded object (for the
attachment handler provided the fresh timestamped name differs from the old
one); but when the record patch fails, the rollback deletes the new object
while the old object is already gone, leaving the artifact pointer
dangling. -/
theorem c1_old_delete_precedes_patch (st : ExpenseState) (content now : Nat)
    (ext : String) :
    ((postAttachment st content now ext true).state.expense.attachmentFileName
        = some (attachmentFileNameFor st.expense now ext)
      ∧ ((∀ old, st.expense.attachmentFileName = some old →
            old ≠ attachmentFileNameFor st.expense now ext) →
          blobGet (postAttachment st content now ext true).state.blobs
            (attachmentUploadPath st.expense now ext) = some content))
    ∧ (∀ old, st.expense.attachmentFileName = some old →
        (postAttachment st content now ext false).state.expense.attachmentFileName
            = some old
        ∧ blobGet (postAttachment st content now ext false).state.blobs
            (BlobPath.expenseUploaded st.expense.userId old) = none)
    ∧ ((postPdf st content true).state.expense.expenseFileName
        = some (pdfFileNameFor st.expense)
      ∧ blobGet (postPdf st content true).state.blobs
          (pdfUploadPath st.expense) = some content)
    ∧ (∀ old, st.expense.expenseFileName = some old →
        (postPdf st content false).state.expense.expenseFileName = some old
        ∧ blobGet (postPdf st content false).state.blobs
            (BlobPath.expenseGenerated st.expense.userId old) = none) := by
  refine ⟨⟨rfl, ?_⟩, ?_, ⟨rfl, ?_⟩, ?_⟩
  · intro hne
    cases h : st.expense.attachmentFileName with
    | none =>
        simp only [postAttachment, h]
        exact blobGet_blobPut_self _ _ _
    | some old =>
        have hne2 : attachmentUploadPath st.expense now ext
            ≠ BlobPath.expenseUploaded st.expense.userId old := by
          simp only [attachmentUploadPath, ne_eq, BlobPath.expenseUploaded.injEq,
            not_and]
          intro _ hfe
          exact (hne old h) hfe.symm
        simp only [postAttachment, h]
        rw [blobGet_blobDelete_ne _ _ _ hne2, blobGet_blobPut_self]
  · intro old h
    refine ⟨h, ?_⟩
    simp only [postAttachment, h]
    by_cases he : BlobPath.expenseUploaded st.expense.userId old
        = attachmentUploadPath st.expense now ext
    · rw [he]
      exact blobGet_blobDelete_self _ _
    · rw [blobGet_blobDelete_ne _ _ _ he, blobGet_blobDelete_self]
  · cases h : st.expense.expenseFileName with
    | none =>
        simp only [postPdf, h]
        exact blobGet_blobPut_self _ _ _
    | some old =>
        by_cases he : old = pdfFileNameFor st.expense
        · simp only [postPdf, h]
          rw [if_pos he]
          exact blobGet_blobPut_self _ _ _
        · have hne2 : pdfUploadPath st.expense
              ≠ BlobPath.expenseGenerated st.expense.userId old := by
            simp only [pdfUploadPath, ne_eq, BlobPath.expenseGenerated.injEq,
              not_and]
            intro _ hfe
            exact he hfe.symm
          simp only [postPdf, h]
          rw [if_neg he, blobGet_blobDelete_ne _ _ _ hne2, blobGet_blobPut_self]
  · intro old h
    refine ⟨h, ?_⟩
    simp only [postPdf, h]
    by_cases hq : old = pdfFileNameFor st.expense
    · rw [if_pos hq, hq]
      simp only [pdfUploadPath]
      exact blobGet_blobDelete_self _ _
    · rw [if_neg hq]
      by_cases he : BlobPath.expenseGenerated st.expense.userId old
          = pdfUploadPath st.expense
      · rw [he]
        exact blobGet_blobDelete_self _ _
      · rw [blobGet_blobDelete_ne _ _ _ he, blobGet_blobDelete_self]

/-- Witness for C1 (amended) at the concrete state of the counterexample:
the failed-patch branch leaves the record naming the old attachment with its
object gone, and the successful branch resolves to the new object. -/
theorem c1_old_delete_precedes_patch_witness :
    ((postAttachment c1State 9 5 ".png" false).state.expense.attachmentFileName
        = some "old.png"
      ∧ blobGet (postAttachment c1State 9 5 ".png" false).state.blobs
          (BlobPath.expenseUploaded 2 "old.png") = none)
    ∧ blobGet (postAttachment c1State 9 5 ".png" true).state.blobs
        (attachmentUploadPath c1State.expense 5 ".png") = some 9 := by
  have h := c1_old_delete_precedes_patch c1State 9 5 ".png"
  refine ⟨h.2.1 "old.png" rfl, h.1.2 ?_⟩
  intro old hold
  have he : old = "old.png" := by
    have : some "old.png" = some old := hold
    exact (Option.some.injEq _ _ ▸ this).symm
  rw [he]
  decide

/-- Concrete expense used to exercise both failed-patch branches: an old
attachment and an old generated PDF are on record and in the store. -/
def c6State : ExpenseState :=
  { expense := { id := 3, userId := 4, billNumber := some "B2",
                 attachmentFileName := some "oldatt.png",
                 expenseFileName := some "legacy.pdf" },
    blobs := [(BlobPath.expenseUploaded 4 "oldatt.png", 11),
              (BlobPath.expenseGenerated 4 "legacy.pdf", 12)] }

/-- C6: the claim that after a failed record patch the record still points at
the original artifact is false at a concrete input: the error is surfaced,
the new object is deleted and the filename field is unchanged, but the
original artifact object was already deleted before the patch, so the
retained pointer does not resolve. -/
theorem c6_counterexample :
    ((postPdf c6State 9 false).response
        = HandlerResponse.err "Failed to update expense PDF filename"
      ∧ blobGet (postPdf c6State 9 false).state.blobs
          (pdfUploadPath c6State.expense) = none
      ∧ (postPdf c6State 9 false).state.expense.expenseFileName
          = some "legacy.pdf")
    ∧ ¬((blobGet (postPdf c6State 9 false).state.blobs
          (BlobPath.expenseGenerated 4 "legacy.pdf")).isSome = true) := by
  decide

/-- C6 (amended): in both handlers, if the record patch fails the newly
uploaded object is deleted, the original error is surfaced and the
artifact-filename field keeps its pre-operation value; but the original
artifact object itself has already been deleted before the patch, so the
retained pointer no longer resolves. -/
theorem c6_patch_failure_rollback (st : ExpenseState) (content now : Nat)
    (ext : String) :
    (∀ old, st.expense.attachmentFileName = some old →
      (postAttachment st content now ext false).response
          = HandlerResponse.err "Failed to update expense attachment filename"
      ∧ blobGet (postAttachment st content now ext false).state.blobs
          (attachmentUploadPath st.expense now ext) = none
      ∧ (postAttachment st content now ext false).state.expense.attachmentFileName
          = some old
      ∧ blobGet (postAttachment st content now ext false).state.blobs
          (BlobPath.expenseUploaded st.expense.userId old) = none)
    ∧ (∀ old, st.expense.expenseFileName = some old →
      (postPdf st content false).response
          = HandlerResponse.err "Failed to update expense PDF filename"
      ∧ blobGet (postPdf st content false).state.blobs
          (pdfUploadPath st.expense) = none
      ∧ (postPdf st content false).state.expense.expenseFileName = some old
      ∧ blobGet (postPdf st content false).state.blobs
          (BlobPath.expenseGenerated st.expense.userId old) = none) := by
  constructor
  · intro old h
    refine ⟨rfl, ?_, h, ?_⟩
    · simp only [postAttachment, h]
      exact blobGet_blobDelete_self _ _
    · simp only [postAttachment, h]
      by_cases he : BlobPath.expenseUploaded st.expense.userId old
          = attachmentUploadPath st.expense now ext
      · rw [he]
        exact blobGet_blobDelete_self _ _
      · rw [blobGet_blobDelete_ne _ _ _ he, blobGet_blobDelete_self]
  · intro old h
    refine ⟨rfl, ?_, h, ?_⟩
    · simp only [postPdf, h]
      exact blobGet_blobDelete_self _ _
    · simp only [postPdf, h]
      by_cases hq : old = pdfFileNameFor st.expense
      · rw [if_pos hq, hq]
        simp only [pdfUploadPath]
        exact blobGet_blobDelete_self _ _
      · rw [if_neg hq]
        by_cases he : BlobPath.expenseGenerated st.expense.userId old
            = pdfUploadPath st.expense
        · rw [he]
          exact blobGet_blobDelete_self _ _
        · rw [blobGet_blobDelete_ne _ _ _ he, blobGet_blobDelete_self]

/-- Witness for C6 (amended) at a concrete state, covering both the
attachment and the PDF handler. -/
theorem c6_patch_failure_rollback_witness :
    ((postAttachment c6State 9 5 ".png" false).response
        = HandlerResponse.err "Failed to update expense attachment filename"
      ∧ blobGet (postAttachment c6State 9 5 ".png" false).state.blobs
          (attachmentUploadPath c6State.expense 5 ".png") = none
      ∧ (postAttachment c6State 9 5 ".png" false).state.expense.attachmentFileName
          = some "oldatt.png"
      ∧ blobGet (postAttachment c6State 9 5 ".png" false).state.blobs
          (BlobPath.expenseUploaded 4 "oldatt.png") = none)
    ∧ ((postPdf c6State 9 false).response
        = HandlerResponse.err "Failed to update expense PDF filename"
      ∧ blobGet (postPdf c6State 9 false).state.blobs
          (pdfUploadPath c6State.expense) = none
      ∧ (postPdf c6State 9 false).state.expense.expenseFileName
          = some "legacy.pdf"
      ∧ blobGet (postPdf c6State 9 false).state.blobs
          (BlobPath.expenseGenerated 4 "legacy.pdf") = none) := by
  have h := c6_patch_failure_rollback c6State 9 5 ".png"
  exact ⟨h.1 "oldatt.png" rfl, h.2 "legacy.pdf" rfl⟩

/-- Concrete expense whose current generated-PDF filename coincides with the
bill-number-derived name the PDF handler computes. -/
def c8State : ExpenseState :=
  { expense := { id := 5, userId := 6, billNumber := some "B3",
                 attachmentFileName := some "x.png",
                 expenseFileName := some "B3.pdf" },
    blobs := [(BlobPath.expenseGenerated 6 "B3.pdf", 7)] }

/-- C8: the claim that every attach/replace operation uploads under a fresh,
timestamp-qualified filename distinct from the current one, never
overwriting the old object in place, is false at a concrete input: the PDF
handler derives the name from the bill number with no timestamp, the name
equals the filename the record already references, and the upload replaces
the old object (content 7) with the new one (content 9) in place. -/
theorem c8_counterexample :
    pdfFileNameFor c8State.expense = "B3.pdf"
    ∧ c8State.expense.expenseFileName = some "B3.pdf"
    ∧ blobGet c8State.blobs (BlobPath.expenseGenerated 6 "B3.pdf") = some 7
    ∧ blobGet (postPdf c8State 9 true).state.blobs
        (BlobPath.expenseGenerated 6 "B3.pdf") = some 9 := by
  decide

/-- C8 (amended): the attachment handler does upload under a timestamp
qualified filename (bill number, underscore, upload timestamp, extension)
whose path differs from the old object whenever the names differ; the PDF
handler instead derives its filename from the bill number without a
timestamp, and when that name equals the filename the record currently
references, the upload overwrites the old object in place. -/
theorem c8_filename_freshness (st : ExpenseState) (content now : Nat)
    (ext : String) :
    (attachmentFileNameFor st.expense now ext
        = (st.expense.billNumber.getD ("BILL-" ++ toString st.expense.id))
            ++ "_" ++ toString now ++ ext)
    ∧ (∀ old, st.expense.attachmentFileName = some old →
        old ≠ attachmentFileNameFor st.expense now ext →
        attachmentUploadPath st.expense now ext
          ≠ BlobPath.expenseUploaded st.expense.userId old)
    ∧ (st.expense.expenseFileName = some (pdfFileNameFor st.expense) →
        (postPdf st content true).state.blobs
          = blobPut st.blobs (pdfUploadPath st.expense) content) := by
  refine ⟨rfl, ?_, ?_⟩
  · intro old _ hne
    simp only [attachmentUploadPath, ne_eq, BlobPath.expenseUploaded.injEq,
      not_and]
    intro _ hfe
    exact hne hfe.symm
  · intro h
    simp only [postPdf, h]
    rw [if_pos trivial]

/-- Witness for C8 (amended) at the concrete state of the counterexample. -/
theorem c8_filename_freshness_witness :
    attachmentUploadPath c8State.expense 5 ".png"
        ≠ BlobPath.expenseUploaded 6 "x.png"
    ∧ (postPdf c8State 9 true).state.blobs
        = blobPut c8State.blobs (pdfUploadPath c8State.expense) 9 := by
  have h := c8_filename_freshness c8State 9 5 ".png"
  exact ⟨h.2.1 "x.png" rfl (by decide), h.2.2 (by decide)⟩

/-! ## Invoice record store (src/unnamed/part_004, invoiceService)

Dates are modelled as integer day ordinals: the code normalises both sides of
every date comparison to local midnight with `setHours(0,0,0,0)` before
comparing, so a day-granularity integer carries exactly the compared
information.  Monetary amounts are modelled as integers (the claims under
verification do not involve amount arithmetic).  Timestamps
(`CURRENT_TIMESTAMP`) are supplied by the environment clock `nowTs`. -/

/-- Document status enum of invoices. -/
inductive InvStatus where
  | pending
  | overdue
  | paid
deriving DecidableEq

/-- An application error: HTTP status plus message (`AppError`). -/
structure AppErr where
  status : Nat
  message : String
deriving DecidableEq

def userNotFound : AppErr := { status := 404, message := "User not found" }

def clientNotFound : AppErr := { status := 404, message := "Client not found" }

def projectNotFound : AppErr := { status := 404, message := "Project not found" }

/-- Modelled error for a missing line-item reference; the code interpolates
the item id into the message, which is irrelevant to the claims. -/
def itemNotFound : AppErr := { status := 404, message := "Item not found" }

def invoiceNotFound : AppErr := { status := 404, message := "Invoice not found" }

def noFieldsToUpdate : AppErr := { status := 400, message := "No fields to update" }

/-- A line item of an invoice (`InvoiceItemCreateData`). -/
structure InvoiceItemCreateData where
  itemsId : Nat
  quantity : Int
  unitPrice : Int
deriving DecidableEq

/-- An invoice row; the `reminders` and `payments` lists stand for the rows
of the payment-reminder and payment tables owned by (keyed on) this
invoice. -/
structure Invoice where
  id : Nat
  userId : Nat
  clientId : Nat
  projectId : Option Nat
  invoiceNumber : Option String
  invoiceDate : Int
  dueDate : Int
  subTotalAmount : Int
  gst : Int
  totalAmount : Int
  currency : String
  totalInstallments : Nat
  currentInstallment : Nat
  additionalNotes : String
  paymentReminderRepetition : Option (List String)
  status : InvStatus
  paymentTerms : String
  advanceAmount : Option Int
  balanceDue : Option Int
  balanceDueDate : Option Int
  invoiceFileName : Option String
  createdAt : Nat
  updatedAt : Nat
  lineItems : List InvoiceItemCreateData
  reminders : List Int
  payments : List Nat
deriving DecidableEq

/-- The invoices table plus its serial id sequence. -/
structure InvoiceDB where
  rows : List Invoice
  nextId : Nat
deriving DecidableEq

/-- Environment of the services: the referential tables consulted by the
record store (users, master_clients, projects and items, each keyed by id
and owner), the process-local clock, and oracles standing for collaborating
services whose bodies are not under src/ together with injected faults for
store calls.
The oracle fields are: `remindersFor` — modelled from the spec:
`createPaymentReminders(invoiceId, dueDate, repetition)` produces the
reminder rows for a due date and repetition list; `clientsOf` /
`clientsThrow` — modelled from the spec: `getClientsByProjectId` resolves a
project to its client ids, or throws; `itemOk` / `itemIdFor` — modelled from
the spec: `getOrCreateItemByName(userId, serviceType)` resolves or creates a
billable item by case-insensitive name and returns its id, or throws;
`markOk` — injected failure of the milestone status `UPDATE`; `renderOk` —
injected failure of `generateInvoicePdf` for a given invoice id; `uploadOk`
— injected failure of the artifact upload; `patchOk` — injected failure of
the `updateInvoicePdfFilename` query. -/
structure Env where
  users : List Nat
  clients : List (Nat × Nat)
  projects : List (Nat × Nat)
  items : List (Nat × Nat)
  currencyOf : Nat → Option String
  today : Int
  nowTs : Nat
  remindersFor : Int → List String → List Int
  clientsOf : Nat → List Nat
  clientsThrow : Nat → Bool
  itemOk : Nat → String → Bool
  itemIdFor : Nat → String → Nat
  markOk : Nat → Bool
  renderOk : Nat → Bool
  uploadOk : Nat → Bool
  patchOk : Nat → Bool

/-- Creation payload (`InvoiceCreateData`); optional fields mirror the
`undefined`/falsy handling of the code. -/
structure InvoiceCreateData where
  userId : Nat
  clientId : Nat
  projectId : Option Nat
  invoiceNumber : Option String
  invoiceDate : Int
  dueDate : Int
  subTotalAmount : Option Int
  gst : Option Int
  totalAmount : Option Int
  currency : Option String
  totalInstallments : Option Nat
  currentInstallment : Option Nat
  additionalNotes : Option String
  paymentReminderRepetition : Option (List String)
  paymentTerms : Option String
  advanceAmount : Option Int
  balanceDue : Option Int
  balanceDueDate : Option Int
  items : List InvoiceItemCreateData
deriving DecidableEq

/-- Referential checks of `createInvoice` (part_004 lines 26-55 and 138-146),
in source order: user, client (scoped to user), optional project (scoped to
user), each line item (scoped to user). -/
def createChecks (env : Env) (data : InvoiceCreateData) : Option AppErr :=
  if !(env.users.contains data.userId) then some userNotFound
  else if !(env.clients.contains (data.clientId, data.userId)) then
    some clientNotFound
  else if (match data.projectId with
           | some p => !(env.projects.contains (p, data.userId))
           | none => false) then some projectNotFound
  else
    match data.items.find?
        (fun it => !(env.items.contains (it.itemsId, data.userId))) with
    | some _ => some itemNotFound
    | none => none

/-- Amount handling of `createInvoice` (part_004 lines 57-78): amounts are
taken as supplied; when items are present and no (or zero, which is falsy)
subtotal was supplied, the subtotal is summed from the items and the total
is derived from it and the GST percentage unless a total was supplied. -/
def createAmounts (data : InvoiceCreateData) : Int × Int × Int :=
  let subTotal0 := data.subTotalAmount.getD 0
  let gstPercentage := data.gst.getD 0
  let totalAmount0 := data.totalAmount.getD 0
  if !data.items.isEmpty && subTotal0 == 0 then
    let subTotal := data.items.foldl
      (fun acc it => acc + it.quantity * it.unitPrice) 0
    let totalAmount :=
      if totalAmount0 == 0 && gstPercentage > 0 then
        subTotal + subTotal * gstPercentage / 100
      else if totalAmount0 == 0 then subTotal
      else totalAmount0
    (subTotal, gstPercentage, totalAmount)
  else (subTotal0, gstPercentage, totalAmount0)

/-- The row `createInvoice` inserts (part_004 lines 92-156), given the id the
serial sequence assigns.  The invoice number defaults, when absent from the
payload, to a fresh number — modelled from the spec: the milestone flow
supplies no number, yet downstream code (`sendInvoiceEmail`, the pdf file
name) relies on a non-null number, so the database populates it. -/
def buildInvoiceRow (env : Env) (data : InvoiceCreateData) (id : Nat) :
    Invoice :=
  let amounts := createAmounts data
  { id := id
    userId := data.userId
    clientId := data.clientId
    projectId := data.projectId
    invoiceNumber := some (data.invoiceNumber.getD ("INV-" ++ toString id))
    invoiceDate := data.invoiceDate
    dueDate := data.dueDate
    subTotalAmount := amounts.1
    gst := amounts.2.1
    totalAmount := amounts.2.2
    currency := data.currency.getD ((env.currencyOf data.userId).getD "INR")
    totalInstallments := data.totalInstallments.getD 1
    currentInstallment := data.currentInstallment.getD 1
    additionalNotes := data.additionalNotes.getD "Thank you for your business"
    paymentReminderRepetition :=
      match data.paymentReminderRepetition with
      | some l => if l.isEmpty then none else some l
      | none => none
    status := if data.dueDate < env.today then InvStatus.overdue
              else InvStatus.pending
    paymentTerms := data.paymentTerms.getD "full"
    advanceAmount := data.advanceAmount
    balanceDue := data.balanceDue
    balanceDueDate := data.balanceDueDate
    invoiceFileName := none
    createdAt := env.nowTs
    updatedAt := env.nowTs
    lineItems := data.items
    reminders :=
      match data.paymentReminderRepetition with
      | some l => env.remindersFor data.dueDate l
      | none => []
    payments := [] }

/-- `createInvoice` (part_004 lines 18-185): run the referential checks, then
insert the invoice (status derived from the due date against local-midnight
today) and its line items in one transaction; reminder creation failures are
swallowed, so reminder rows are attached deterministically here. -/
def createInvoice (env : Env) (db : InvoiceDB) (data : InvoiceCreateData) :
    Except AppErr (Invoice × InvoiceDB) :=
  match createChecks env data with
  | some e => Except.error e
  | none =>
      let inv := buildInvoiceRow env data db.nextId
      Except.ok (inv, { rows := db.rows ++ [inv], nextId := db.nextId + 1 })

/-- The `WHERE id = $1 AND "userId" = $2` predicate used by every per-record
query of the service. -/
def invoiceMatches (invoiceId userId : Nat) (r : Invoice) : Bool :=
  r.id == invoiceId && r.userId == userId

/-- `getInvoiceById` (part_004 lines 222-255): owner-scoped lookup; a row
owned by someone else and a missing row give the same 404. -/
def getInvoiceById (db : InvoiceDB) (invoiceId userId : Nat) :
    Except AppErr Invoice :=
  match db.rows.find? (invoiceMatches invoiceId userId) with
  | some r => Except.ok r
  | none => Except.error invoiceNotFound

/-- Update payload (`InvoiceUpdateData`): an outer `Option` marks a field as
present in the patch (`!== undefined`); `projectId` can additionally be set
to null. -/
structure InvoiceUpdateData where
  clientId : Option Nat
  projectId : Option (Option Nat)
  invoiceNumber : Option String
  invoiceDate : Option Int
  dueDate : Option Int
  subTotalAmount : Option Int
  gst : Option Int
  totalAmount : Option Int
  currency : Option String
  totalInstallments : Option Nat
  currentInstallment : Option Nat
  additionalNotes : Option String
  paymentReminderRepetition : Option (List String)
  status : Option InvStatus
  paymentTerms : Option String
  advanceAmount : Option Int
  balanceDue : Option Int
  balanceDueDate : Option Int
deriving DecidableEq

/-- The patch with none of the recognized updatable fields present. -/
def emptyUpdate : InvoiceUpdateData :=
  { clientId := none, projectId := none, invoiceNumber := none,
    invoiceDate := none, dueDate := none, subTotalAmount := none,
    gst := none, totalAmount := none, currency := none,
    totalInstallments := none, currentInstallment := none,
    additionalNotes := none, paymentReminderRepetition := none,
    status := none, paymentTerms := none, advanceAmount := none,
    balanceDue := none, balanceDueDate := none }

/-- Number of `updateFields` entries built by `updateInvoice`
(part_004 lines 313-419): one per field present in the patch. -/
def updateFieldCount (u : InvoiceUpdateData) : Nat :=
  [u.clientId.isSome, u.projectId.isSome, u.invoiceNumber.isSome,
   u.invoiceDate.isSome, u.dueDate.isSome, u.subTotalAmount.isSome,
   u.gst.isSome, u.totalAmount.isSome, u.currency.isSome,
   u.totalInstallments.isSome, u.currentInstallment.isSome,
   u.additionalNotes.isSome, u.paymentReminderRepetition.isSome,
   u.status.isSome, u.paymentTerms.isSome, u.advanceAmount.isSome,
   u.balanceDue.isSome, u.balanceDueDate.isSome].count true

/-- Application of the dynamic `UPDATE ... SET` built by `updateInvoice`:
each present field overwrites the row, `updatedAt` is set to the current
timestamp; an empty repetition list is stored as null, as on create. -/
def applyUpdate (row : Invoice) (u : InvoiceUpdateData) (now : Nat) :
    Invoice :=
  { row with
    clientId := u.clientId.getD row.clientId
    projectId := match u.projectId with
                 | some p => p
                 | none => row.projectId
    invoiceNumber := match u.invoiceNumber with
                     | some v => some v
                     | none => row.invoiceNumber
    invoiceDate := u.invoiceDate.getD row.invoiceDate
    dueDate := u.dueDate.getD row.dueDate
    subTotalAmount := u.subTotalAmount.getD row.subTotalAmount
    gst := u.gst.getD row.gst
    totalAmount := u.totalAmount.getD row.totalAmount
    currency := u.currency.getD row.currency
    totalInstallments := u.totalInstallments.getD row.totalInstallments
    currentInstallment := u.currentInstallment.getD row.currentInstallment
    additionalNotes := u.additionalNotes.getD row.additionalNotes
    paymentReminderRepetition :=
      match u.paymentReminderRepetition with
      | some l => if l.isEmpty then none else some l
      | none => row.paymentReminderRepetition
    status := u.status.getD row.status
    paymentTerms := u.paymentTerms.getD row.paymentTerms
    advanceAmount := match u.advanceAmount with
                     | some v => some v
                     | none => row.advanceAmount
    balanceDue := match u.balanceDue with
                  | some v => some v
                  | none => row.balanceDue
    balanceDueDate := match u.balanceDueDate with
                      | some v => some v
                      | none => row.balanceDueDate
    updatedAt := now }

/-- The successful-path row transformation of `updateInvoice`: the cascade
delete of payment rows when leaving `paid` for `pending`/`overdue`, the
dynamic `UPDATE` of the present fields, the auto-recompute of status from a
changed due date when no explicit status accompanies it and the current
status is not `paid`, and the recomputation of the reminder rows when the
repetition or due date changed. -/
def updatedRowFor (env : Env) (row : Invoice) (u : InvoiceUpdateData) :
    Invoice :=
  let row1 :=
    if u.status.isSome && row.status == InvStatus.paid
        && (u.status == some InvStatus.pending
            || u.status == some InvStatus.overdue)
    then { row with payments := [] } else row
  let row2 := applyUpdate row1 u env.nowTs
  let row3 :=
    if u.dueDate.isSome && u.status.isNone
        && !(row2.status == InvStatus.paid) then
      { row2 with
        status := if u.dueDate.getD row2.dueDate < env.today then
                    InvStatus.overdue
                  else InvStatus.pending }
    else row2
  if u.paymentReminderRepetition.isSome || u.dueDate.isSome then
    { row3 with
      reminders :=
        match row3.paymentReminderRepetition with
        | some l => env.remindersFor (u.dueDate.getD row3.dueDate) l
        | none => [] }
  else row3

/-- `updateInvoice` (part_004 lines 260-495).  In source order: owner-scoped
fetch (404 when absent or owned by someone else); cascade-delete of payment
rows when leaving `paid` for `pending`/`overdue`; referential checks of a
supplied client/project; the "No fields to update" guard; the dynamic
`UPDATE`; auto-recompute of status from a changed due date when no explicit
status accompanies it and the current status is not `paid`; reminder rows
recomputed when the repetition or due date changed.  Any thrown error rolls
the transaction back, so the database is returned unchanged on error. -/
def updateInvoice (env : Env) (db : InvoiceDB) (invoiceId userId : Nat)
    (u : InvoiceUpdateData) : (Except AppErr Invoice) × InvoiceDB :=
  match db.rows.find? (invoiceMatches invoiceId userId) with
  | none => (Except.error invoiceNotFound, db)
  | some row =>
      if (match u.clientId with
          | some c => !(env.clients.contains (c, userId))
          | none => false) then
        (Except.error clientNotFound, db)
      else if (match u.projectId with
               | some (some p) => !(env.projects.contains (p, userId))
               | _ => false) then
        (Except.error projectNotFound, db)
      else if updateFieldCount u == 0 then
        (Except.error noFieldsToUpdate, db)
      else
        let row4 := updatedRowFor env row u
        let rows2 := db.rows.map
          (fun r => if invoiceMatches invoiceId userId r then row4 else r)
        (Except.ok row4, { db with rows := rows2 })

/-- `deleteInvoice` (part_004 lines 500-541): owner-scoped fetch (404 when
absent or owned by someone else), delete the row (line items cascade), then
best-effort delete of the PDF object, whose failure never fails the
delete. -/
def deleteInvoice (db : InvoiceDB) (blobs : BlobStore)
    (invoiceId userId : Nat) :
    (Except AppErr Unit) × InvoiceDB × BlobStore :=
  match db.rows.find? (invoiceMatches invoiceId userId) with
  | none => (Except.error invoiceNotFound, db, blobs)
  | some row =>
      let db1 := { db with
        rows := db.rows.filter
          (fun r => !(invoiceMatches invoiceId userId r)) }
      match row.invoiceFileName with
      | some f => (Except.ok (), db1,
          blobDelete blobs (BlobPath.invoices userId f))
      | none => (Except.ok (), db1, blobs)

/-- `updateInvoicePdfFilename` (part_004 lines 914-936): owner-scoped patch
of the PDF filename reference, bumping `updatedAt`; 404 when no row
matches. -/
def updateInvoicePdfFilename (env : Env) (db : InvoiceDB)
    (invoiceId userId : Nat) (fileName : String) :
    (Except AppErr Unit) × InvoiceDB :=
  if (db.rows.find? (invoiceMatches invoiceId userId)).isSome then
    let rows2 := db.rows.map
      (fun r => if invoiceMatches invoiceId userId r then
                  { r with invoiceFileName := some fileName,
                           updatedAt := env.nowTs }
                else r)
    (Except.ok (), { db with rows := rows2 })
  else (Except.error invoiceNotFound, db)

/-! ## Claims C7, C9, C10: record store behaviour -/

/-- C7: on create the status of a Document is derived from its due date
compared to local-midnight today (past gives `overdue`, today or future
gives `pending`); on update, a changed due date with no explicit status in
the same call recomputes the status by the same rule, except that a Document
currently `paid` keeps `paid`. -/
theorem c7_status_derivation (env : Env) (db : InvoiceDB)
    (data : InvoiceCreateData) (invoiceId userId : Nat)
    (u : InvoiceUpdateData) :
    (∀ inv db2, createInvoice env db data = Except.ok (inv, db2) →
        inv.status = (if data.dueDate < env.today then InvStatus.overdue
                      else InvStatus.pending))
    ∧ (∀ r0 d inv,
        db.rows.find? (invoiceMatches invoiceId userId) = some r0 →
        u.dueDate = some d → u.status = none →
        (updateInvoice env db invoiceId userId u).1 = Except.ok inv →
        inv.status = (if r0.status = InvStatus.paid then InvStatus.paid
                      else if d < env.today then InvStatus.overdue
                      else InvStatus.pending)) := by
  constructor
  · intro inv db2 h
    cases hc : createChecks env data with
    | some e =>
        simp only [createInvoice, hc] at h
        exact absurd h (by simp)
    | none =>
        simp only [createInvoice, hc, Except.ok.injEq, Prod.mk.injEq] at h
        rw [← h.1]
        rfl
  · intro r0 d inv hfind hd hs h
    simp only [updateInvoice, hfind] at h
    split at h
    · simp at h
    · split at h
      · simp at h
      · split at h
        · simp at h
        · simp only [Except.ok.injEq] at h
          subst h
          by_cases hr : r0.status = InvStatus.paid
          · simp [updatedRowFor, applyUpdate, hd, hs, hr]
          · simp [updatedRowFor, applyUpdate, hd, hs, hr]

/-- Shared sample environment for concrete witnesses: one user (id 1) with
client 2, project 3 and item 4; today is day 100. -/
def sampleEnv : Env :=
  { users := [1], clients := [(2, 1)], projects := [(3, 1)],
    items := [(4, 1)], currencyOf := fun _ => none, today := 100,
    nowTs := 50, remindersFor := fun _ _ => [],
    clientsOf := fun _ => [], clientsThrow := fun _ => false,
    itemOk := fun _ _ => true, itemIdFor := fun _ _ => 4,
    markOk := fun _ => true, renderOk := fun _ => true,
    uploadOk := fun _ => true, patchOk := fun _ => true }

/-- Shared sample invoice row with the given id and owner, due on day 150
(in the future relative to `sampleEnv`). -/
def mkRow (id uid : Nat) : Invoice :=
  { id := id, userId := uid, clientId := 2, projectId := none,
    invoiceNumber := some "INV-7", invoiceDate := 90, dueDate := 150,
    subTotalAmount := 10, gst := 0, totalAmount := 10, currency := "INR",
    totalInstallments := 1, currentInstallment := 1,
    additionalNotes := "Thank you for your business",
    paymentReminderRepetition := none, status := InvStatus.pending,
    paymentTerms := "full", advanceAmount := none, balanceDue := none,
    balanceDueDate := none, invoiceFileName := none, createdAt := 40,
    updatedAt := 40, lineItems := [], reminders := [], payments := [] }

/-- Creation payload used by the C7 witness: due date in the past. -/
def c7Data : InvoiceCreateData :=
  { userId := 1, clientId := 2, projectId := none, invoiceNumber := none,
    invoiceDate := 99, dueDate := 99, subTotalAmount := some 10,
    gst := some 0, totalAmount := some 10, currency := none,
    totalInstallments := none, currentInstallment := none,
    additionalNotes := none, paymentReminderRepetition := none,
    paymentTerms := none, advanceAmount := none, balanceDue := none,
    balanceDueDate := none, items := [] }

/-- Patch used by the C7 witness: due date moved to the past, no explicit
status. -/
def c7Patch : InvoiceUpdateData :=
  { clientId := none, projectId := none, invoiceNumber := none,
    invoiceDate := none, dueDate := some 99, subTotalAmount := none,
    gst := none, totalAmount := none, currency := none,
    totalInstallments := none, currentInstallment := none,
    additionalNotes := none, paymentReminderRepetition := none,
    status := none, paymentTerms := none, advanceAmount := none,
    balanceDue := none, balanceDueDate := none }

/-- Database holding the sample row the C7 witness updates. -/
def c7Db : InvoiceDB := { rows := [mkRow 7 1], nextId := 8 }

/-- The invoice returned by the C7 witness update run. -/
def c7UpdInv : Invoice :=
  match (updateInvoice sampleEnv c7Db 7 1 c7Patch).1 with
  | Except.ok i => i
  | Except.error _ => mkRow 7 1

/-- Witness for C7: creating with a past due date yields `overdue`, and
updating the due date of a pending invoice to the past without an explicit
status recomputes it. -/
theorem c7_status_derivation_witness :
    (buildInvoiceRow sampleEnv c7Data 1).status
        = (if (99 : Int) < sampleEnv.today then InvStatus.overdue
           else InvStatus.pending)
    ∧ c7UpdInv.status
        = (if (mkRow 7 1).status = InvStatus.paid then InvStatus.paid
           else if (99 : Int) < sampleEnv.today then InvStatus.overdue
           else InvStatus.pending) := by
  constructor
  · exact (c7_status_derivation sampleEnv { rows := [], nextId := 1 } c7Data
      7 1 c7Patch).1 (buildInvoiceRow sampleEnv c7Data 1)
      { rows := [buildInvoiceRow sampleEnv c7Data 1], nextId := 2 } rfl
  · exact (c7_status_derivation sampleEnv c7Db c7Data 7 1 c7Patch).2
      (mkRow 7 1) 99 c7UpdInv (by decide) rfl rfl rfl

/-- C9: for getInvoiceById, updateInvoice and deleteInvoice, a call naming a
record that exists but belongs to a different owner produces exactly the
same `Invoice not found` outcome (response and state) as a call naming a
record that does not exist at all; no distinct forbidden result leaks the
record's existence. -/
theorem c9_wrong_owner_is_not_found (env : Env) (db1 db2 : InvoiceDB)
    (blobs : BlobStore) (invoiceId owner : Nat) (u : InvoiceUpdateData)
    (_hex : ∃ r ∈ db1.rows, r.id = invoiceId)
    (hown : ∀ r ∈ db1.rows, r.id = invoiceId → r.userId ≠ owner)
    (habs : ∀ r ∈ db2.rows, r.id ≠ invoiceId) :
    (getInvoiceById db1 invoiceId owner = Except.error invoiceNotFound
      ∧ getInvoiceById db2 invoiceId owner
          = getInvoiceById db1 invoiceId owner)
    ∧ (updateInvoice env db1 invoiceId owner u
          = (Except.error invoiceNotFound, db1)
      ∧ (updateInvoice env db2 invoiceId owner u).1
          = (updateInvoice env db1 invoiceId owner u).1)
    ∧ (deleteInvoice db1 blobs invoiceId owner
          = (Except.error invoiceNotFound, db1, blobs)
      ∧ (deleteInvoice db2 blobs invoiceId owner).1
          = (deleteInvoice db1 blobs invoiceId owner).1) := by
  have f1 : db1.rows.find? (invoiceMatches invoiceId owner) = none := by
    rw [List.find?_eq_none]
    intro r hr
    simp only [invoiceMatches, Bool.and_eq_true, beq_iff_eq, not_and]
    intro hid
    exact fun huid => hown r hr hid huid
  have f2 : db2.rows.find? (invoiceMatches invoiceId owner) = none := by
    rw [List.find?_eq_none]
    intro r hr
    simp only [invoiceMatches, Bool.and_eq_true, beq_iff_eq, not_and]
    intro hid
    exact absurd hid (habs r hr)
  refine ⟨⟨?_, ?_⟩, ⟨?_, ?_⟩, ⟨?_, ?_⟩⟩ <;>
    simp [getInvoiceById, updateInvoice, deleteInvoice, f1, f2]

/-- Databases for the C9 witness: one where invoice 7 belongs to user 1 (and
owner 2 asks for it), one where no invoice 7 exists. -/
def c9Db1 : InvoiceDB := { rows := [mkRow 7 1], nextId := 8 }

def c9Db2 : InvoiceDB := { rows := [mkRow 9 2], nextId := 10 }

/-- Witness for C9 at concrete databases: the wrong-owner call and the
missing-record call coincide on all three operations. -/
theorem c9_wrong_owner_is_not_found_witness :
    (getInvoiceById c9Db1 7 2 = Except.error invoiceNotFound
      ∧ getInvoiceById c9Db2 7 2 = getInvoiceById c9Db1 7 2)
    ∧ (updateInvoice sampleEnv c9Db1 7 2 c7Patch
          = (Except.error invoiceNotFound, c9Db1)
      ∧ (updateInvoice sampleEnv c9Db2 7 2 c7Patch).1
          = (updateInvoice sampleEnv c9Db1 7 2 c7Patch).1)
    ∧ (deleteInvoice c9Db1 [] 7 2
          = (Except.error invoiceNotFound, c9Db1, [])
      ∧ (deleteInvoice c9Db2 [] 7 2).1
          = (deleteInvoice c9Db1 [] 7 2).1) := by
  refine c9_wrong_owner_is_not_found sampleEnv c9Db1 c9Db2 [] 7 2 c7Patch
    ⟨mkRow 7 1, by simp [c9Db1], rfl⟩ ?_ ?_
  · intro r hr hid
    simp only [c9Db1, List.mem_singleton] at hr
    subst hr
    decide
  · intro r hr
    simp only [c9Db2, List.mem_singleton] at hr
    subst hr
    decide

/-- C10: updating an existing invoice with a patch containing none of the
recognized updatable fields fails with the 400 `No fields to update` error
and leaves the database — hence the invoice, its `updatedAt` timestamp and
its reminder rows — entirely unchanged. -/
theorem c10_empty_patch_rejected (env : Env) (db : InvoiceDB)
    (invoiceId userId : Nat)
    (h : (db.rows.find? (invoiceMatches invoiceId userId)).isSome) :
    updateInvoice env db invoiceId userId emptyUpdate
      = (Except.error noFieldsToUpdate, db) := by
  obtain ⟨row, hrow⟩ := Option.isSome_iff_exists.mp h
  have hcount : (updateFieldCount emptyUpdate == 0) = true := rfl
  have hcl : emptyUpdate.clientId = none := rfl
  have hpr : emptyUpdate.projectId = none := rfl
  simp [updateInvoice, hrow, hcount, hcl, hpr]

/-- Witness for C10 at a concrete database holding invoice 7 of user 1. -/
theorem c10_empty_patch_rejected_witness :
    updateInvoice sampleEnv c7Db 7 1 emptyUpdate
      = (Except.error noFieldsToUpdate, c7Db) :=
  c10_empty_patch_rejected sampleEnv c7Db 7 1 (by decide)

/-! ## Batch milestone invoice processor
(src/src/services/milestoneInvoiceService.ts) -/

/-- Milestone status; the column also admits a legacy null, modelled by
`Option MiStatus` with `none`. -/
inductive MiStatus where
  | pending
  | created
deriving DecidableEq

/-- A milestone row joined with its payment term and agreement, as selected
by the batch query: id, the project, owner and service type of the
agreement, description, amount, date and status. -/
structure Milestone where
  id : Nat
  projectId : Nat
  userId : Nat
  serviceType : String
  description : String
  amount : Int
  milestoneDate : Int
  status : Option MiStatus
deriving DecidableEq

/-- The state the batch processor reads and writes: the milestones table,
the invoices table and the artifact store. -/
structure BatchState where
  milestones : List Milestone
  db : InvoiceDB
  blobs : BlobStore
deriving DecidableEq

/-- Result shape of the batch job
(`ProcessMilestoneInvoicesResult`). -/
structure BatchResult where
  processed : Nat
  created : Nat
  failed : Nat
  errors : List (Nat × String)
deriving DecidableEq

def emptyResult : BatchResult :=
  { processed := 0, created := 0, failed := 0, errors := [] }

/-- The WHERE clause of the batch query: milestone due today (today taken
from the local clock of the process) and status `pending` or null. -/
def isDue (env : Env) (m : Milestone) : Bool :=
  m.milestoneDate == env.today
    && (m.status == some MiStatus.pending || m.status == none)

/-- Insertion step of the `ORDER BY apm.id` modelling. -/
def insertById (m : Milestone) : List Milestone → List Milestone
  | [] => [m]
  | x :: xs => if m.id ≤ x.id then m :: x :: xs else x :: insertById m xs

/-- The batch query result sorted by id (`ORDER BY apm.id`). -/
def sortById (ms : List Milestone) : List Milestone :=
  ms.foldr insertById []

/-- The snapshot of due, unprocessed milestones the run iterates over
(the query runs once, before any processing). -/
def dueMilestones (env : Env) (st : BatchState) : List Milestone :=
  sortById (st.milestones.filter (isDue env))

/-- The `InvoiceCreateData` the processor builds for one client of a
milestone (milestoneInvoiceService lines 176-198): invoice and due date both
the milestone date, amounts from the milestone, zero GST, one line item
priced at the milestone amount, notes from the description with a fallback,
full payment terms. -/
def milestoneInvoiceData (m : Milestone) (itemId cid : Nat) :
    InvoiceCreateData :=
  { userId := m.userId, clientId := cid, projectId := some m.projectId,
    invoiceNumber := none, invoiceDate := m.milestoneDate,
    dueDate := m.milestoneDate, subTotalAmount := some m.amount,
    gst := some 0, totalAmount := some m.amount, currency := none,
    totalInstallments := none, currentInstallment := none,
    additionalNotes := some (if m.description.isEmpty then
        "Invoice for milestone: " ++ m.serviceType
      else m.description),
    paymentReminderRepetition := none, paymentTerms := some "full",
    advanceAmount := none, balanceDue := none, balanceDueDate := none,
    items := [{ itemsId := itemId, quantity := 1, unitPrice := m.amount }] }

/-- The inner PDF block of the per-client step (milestoneInvoiceService
lines 207-238): render the PDF, upload it, patch the invoice with the file
name.  A failure of any of the three steps is caught and only logged: the
uploaded object is not deleted, no error propagates, and the invoice still
counts as created.  `renderOk`, `uploadOk` and `patchOk` inject the
failures, keyed by invoice id. -/
def pdfBlock (env : Env) (m : Milestone) (inv : Invoice) (db : InvoiceDB)
    (blobs : BlobStore) : InvoiceDB × BlobStore :=
  if env.renderOk inv.id then
    let fileName := (inv.invoiceNumber.getD "null") ++ ".pdf"
    if env.uploadOk inv.id then
      let blobs1 := blobPut blobs (BlobPath.invoices m.userId fileName) inv.id
      if env.patchOk inv.id then
        ((updateInvoicePdfFilename env db inv.id m.userId fileName).2, blobs1)
      else (db, blobs1)
    else (db, blobs)
  else (db, blobs)

/-- One client of one milestone (milestoneInvoiceService lines 167-255):
create the invoice through `createInvoice`; on failure, count it failed and
record a per-unit error, continuing with the next client; on success run the
PDF block (whose failures are swallowed) and count the invoice created. -/
def processClient (env : Env) (m : Milestone) (itemId : Nat)
    (p : BatchState × BatchResult) (cid : Nat) : BatchState × BatchResult :=
  match createInvoice env p.1.db (milestoneInvoiceData m itemId cid) with
  | Except.error _ =>
      let msg := "Failed to create invoice for client " ++ toString cid
      let res2 := { p.2 with failed := p.2.failed + 1, errors := p.2.errors ++ [(m.id, msg)] }
      (p.1, res2)
  | Except.ok (inv, db1) =>
      let r := pdfBlock env m inv db1 p.1.blobs
      ({ p.1 with db := r.1, blobs := r.2 },
       { p.2 with created := p.2.created + 1 })

/-- Marking of a milestone as processed: the `UPDATE ... SET status =
'created' WHERE id = $1` query. -/
def setCreated (mid : Nat) (ms : List Milestone) : List Milestone :=
  ms.map (fun r => if r.id == mid then { r with status := some MiStatus.created }
                   else r)

/-- One milestone of the batch (milestoneInvoiceService lines 114-286):
count it processed; resolve the project clients (a thrown resolution error
is caught at the milestone level); with zero clients record a per-milestone
error and continue — skipping the status update; resolve or create the
billable item named after the service type (failure recorded, milestone
skipped); otherwise create one invoice per client and afterwards set the
milestone status to created unconditionally (a failure of that update is
caught at the milestone level and recorded). -/
def processOne (env : Env) (p : BatchState × BatchResult) (m : Milestone) :
    BatchState × BatchResult :=
  let st := p.1
  let res := { p.2 with processed := p.2.processed + 1 }
  if env.clientsThrow m.projectId then
    let res2 := { res with failed := res.failed + 1, errors := res.errors ++ [(m.id, "Failed to get clients")] }
    (st, res2)
  else
    let clients := env.clientsOf m.projectId
    if clients.isEmpty then
      let msg := "No clients found for project " ++ toString m.projectId
      let res2 := { res with failed := res.failed + 1, errors := res.errors ++ [(m.id, msg)] }
      (st, res2)
    else if !(env.itemOk m.userId m.serviceType) then
      let res2 := { res with failed := res.failed + 1, errors := res.errors ++ [(m.id, "Failed to get or create item")] }
      (st, res2)
    else
      let itemId := env.itemIdFor m.userId m.serviceType
      let q := clients.foldl (processClient env m itemId) (st, res)
      if env.markOk m.id then
        ({ q.1 with milestones := setCreated m.id q.1.milestones }, q.2)
      else
        let res2 := { q.2 with failed := q.2.failed + 1, errors := q.2.errors ++ [(m.id, "Failed to update milestone status")] }
        (q.1, res2)

/-- The per-milestone loop over a snapshot. -/
def runMilestones (env : Env) (ms : List Milestone)
    (p : BatchState × BatchResult) : BatchState × BatchResult :=
  ms.foldl (processOne env) p

/-- `processMilestoneInvoices` (milestoneInvoiceService lines 60-298): take
the snapshot of due pending milestones ordered by id, process each, and
return the aggregate result together with the final state. -/
def processMilestoneInvoices (env : Env) (st : BatchState) :
    BatchResult × BatchState :=
  let q := runMilestones env (dueMilestones env st) (st, emptyResult)
  (q.2, q.1)

/-- A milestone reaches the per-client loop and its final status update:
the client resolution does not throw and finds at least one client, the
item resolves, and the status update succeeds. -/
def reachesLoop (env : Env) (m : Milestone) : Bool :=
  !env.clientsThrow m.projectId
    && !(env.clientsOf m.projectId).isEmpty
    && env.itemOk m.userId m.serviceType
    && env.markOk m.id

/-! ### Structural lemmas about the processor loop -/

theorem runMilestones_cons (env : Env) (m : Milestone) (tl : List Milestone)
    (p : BatchState × BatchResult) :
    runMilestones env (m :: tl) p = runMilestones env tl (processOne env p m) := rfl

theorem processClient_milestones (env : Env) (m : Milestone) (itemId : Nat)
    (p : BatchState × BatchResult) (cid : Nat) :
    (processClient env m itemId p cid).1.milestones = p.1.milestones := by
  unfold processClient
  cases h : createInvoice env p.1.db (milestoneInvoiceData m itemId cid) with
  | error e => rfl
  | ok v =>
      obtain ⟨inv, db1⟩ := v
      rfl

theorem foldl_processClient_milestones (env : Env) (m : Milestone)
    (itemId : Nat) : ∀ (cids : List Nat) (p : BatchState × BatchResult),
    ((cids.foldl (processClient env m itemId) p).1).milestones
      = p.1.milestones := by
  intro cids
  induction cids with
  | nil => intro p; rfl
  | cons c tl ih =>
      intro p
      rw [List.foldl_cons, ih, processClient_milestones]

theorem processOne_milestones (env : Env) (p : BatchState × BatchResult)
    (m : Milestone) :
    (processOne env p m).1.milestones
      = (if reachesLoop env m then setCreated m.id p.1.milestones
         else p.1.milestones) := by
  unfold processOne reachesLoop
  by_cases h1 : env.clientsThrow m.projectId
  · simp [h1]
  · by_cases h2 : (env.clientsOf m.projectId).isEmpty
    · simp [h1, h2]
    · by_cases h3 : env.itemOk m.userId m.serviceType
      · by_cases h4 : env.markOk m.id
        · simp [h1, h2, h3, h4, foldl_processClient_milestones]
        · simp [h1, h2, h3, h4, foldl_processClient_milestones]
      · simp [h1, h2, h3]

theorem setCreated_status (mid : Nat) (ms : List Milestone) :
    ∀ r ∈ setCreated mid ms, r.id = mid →
      r.status = some MiStatus.created := by
  intro r hr hid
  simp only [setCreated, List.mem_map] at hr
  obtain ⟨a, ha, hae⟩ := hr
  by_cases h : a.id = mid
  · rw [← hae]
    simp [h]
  · rw [← hae] at hid
    simp [h] at hid

theorem setCreated_preserve (mid i : Nat) (ms : List Milestone)
    (h : ∀ r ∈ ms, r.id = i → r.status = some MiStatus.created) :
    ∀ r ∈ setCreated mid ms, r.id = i →
      r.status = some MiStatus.created := by
  intro r hr hid
  simp only [setCreated, List.mem_map] at hr
  obtain ⟨a, ha, hae⟩ := hr
  by_cases hb : a.id = mid
  · rw [← hae]
    simp [hb]
  · rw [← hae] at hid ⊢
    simp [hb] at hid ⊢
    exact h a ha hid

theorem processOne_created_sticky (env : Env) (p : BatchState × BatchResult)
    (m : Milestone) (i : Nat)
    (h : ∀ r ∈ p.1.milestones, r.id = i → r.status = some MiStatus.created) :
    ∀ r ∈ (processOne env p m).1.milestones, r.id = i →
      r.status = some MiStatus.created := by
  rw [processOne_milestones]
  by_cases hb : reachesLoop env m
  · rw [if_pos hb]
    exact setCreated_preserve m.id i p.1.milestones h
  · rw [if_neg hb]
    exact h

theorem runMilestones_created_sticky (env : Env) :
    ∀ (ms : List Milestone) (p : BatchState × BatchResult) (i : Nat),
    (∀ r ∈ p.1.milestones, r.id = i → r.status = some MiStatus.created) →
    ∀ r ∈ (runMilestones env ms p).1.milestones, r.id = i →
      r.status = some MiStatus.created := by
  intro ms
  induction ms with
  | nil => intro p i h; exact h
  | cons m tl ih =>
      intro p i h
      rw [runMilestones_cons]
      exact ih (processOne env p m) i (processOne_created_sticky env p m i h)

theorem runMilestones_sets_created (env : Env) :
    ∀ (ms : List Milestone) (p : BatchState × BatchResult) (m : Milestone),
    m ∈ ms → reachesLoop env m = true →
    ∀ r ∈ (runMilestones env ms p).1.milestones, r.id = m.id →
      r.status = some MiStatus.created := by
  intro ms
  induction ms with
  | nil => intro p m hm; cases hm
  | cons x tl ih =>
      intro p m hm hreach
      rw [runMilestones_cons]
      rcases List.mem_cons.mp hm with he | ht
      · subst he
        apply runMilestones_created_sticky env tl (processOne env p m) m.id
        intro r hr hid
        rw [processOne_milestones, if_pos hreach] at hr
        exact setCreated_status m.id p.1.milestones r hr hid
      · exact ih (processOne env p x) m ht hreach

theorem runMilestones_entries (env : Env) :
    ∀ (ms : List Milestone) (p : BatchState × BatchResult),
    ∀ r ∈ (runMilestones env ms p).1.milestones,
      r.status = some MiStatus.created ∨ r ∈ p.1.milestones := by
  intro ms
  induction ms with
  | nil => intro p r hr; exact Or.inr hr
  | cons x tl ih =>
      intro p r hr
      rw [runMilestones_cons] at hr
      rcases ih (processOne env p x) r hr with hc | hmem
      · exact Or.inl hc
      · rw [processOne_milestones] at hmem
        by_cases hb : reachesLoop env x
        · rw [if_pos hb] at hmem
          simp only [setCreated, List.mem_map] at hmem
          obtain ⟨a, ha, hae⟩ := hmem
          by_cases hx : a.id = x.id
          · left
            rw [← hae]
            simp [hx]
          · right
            rw [← hae]
            simp only [hx, beq_iff_eq, if_neg hx]
            exact ha
        · rw [if_neg hb] at hmem
          exact Or.inr hmem

theorem processClient_errors_mono (env : Env) (m : Milestone) (itemId : Nat)
    (p : BatchState × BatchResult) (cid : Nat) (e : Nat × String)
    (he : e ∈ p.2.errors) :
    e ∈ (processClient env m itemId p cid).2.errors := by
  unfold processClient
  cases h : createInvoice env p.1.db (milestoneInvoiceData m itemId cid) with
  | error err => exact List.mem_append_left _ he
  | ok v =>
      obtain ⟨inv, db1⟩ := v
      exact he

theorem foldl_processClient_errors_mono (env : Env) (m : Milestone)
    (itemId : Nat) : ∀ (cids : List Nat) (p : BatchState × BatchResult)
    (e : Nat × String), e ∈ p.2.errors →
    e ∈ ((cids.foldl (processClient env m itemId) p).2).errors := by
  intro cids
  induction cids with
  | nil => intro p e he; exact he
  | cons c tl ih =>
      intro p e he
      rw [List.foldl_cons]
      exact ih (processClient env m itemId p c) e
        (processClient_errors_mono env m itemId p c e he)

theorem processOne_errors_mono (env : Env) (p : BatchState × BatchResult)
    (m : Milestone) (e : Nat × String) (he : e ∈ p.2.errors) :
    e ∈ (processOne env p m).2.errors := by
  unfold processOne
  by_cases h1 : env.clientsThrow m.projectId
  · simp only [if_pos h1]
    exact List.mem_append_left _ he
  · rw [if_neg h1]
    by_cases h2 : (env.clientsOf m.projectId).isEmpty
    · simp only [if_pos h2]
      exact List.mem_append_left _ he
    · rw [if_neg h2]
      by_cases h3 : env.itemOk m.userId m.serviceType
      · have h3b : (!env.itemOk m.userId m.serviceType) ≠ true := by
          simp [h3]
        rw [if_neg h3b]
        by_cases h4 : env.markOk m.id
        · simp only [if_pos h4]
          exact foldl_processClient_errors_mono env m
            (env.itemIdFor m.userId m.serviceType) (env.clientsOf m.projectId)
            _ e he
        · rw [if_neg h4]
          exact List.mem_append_left _
            (foldl_processClient_errors_mono env m
              (env.itemIdFor m.userId m.serviceType)
              (env.clientsOf m.projectId) _ e he)
      · have h3b : (!env.itemOk m.userId m.serviceType) = true := by
          simp [h3]
        simp only [if_pos h3b]
        exact List.mem_append_left _ he

theorem runMilestones_errors_mono (env : Env) :
    ∀ (ms : List Milestone) (p : BatchState × BatchResult)
    (e : Nat × String), e ∈ p.2.errors →
    e ∈ (runMilestones env ms p).2.errors := by
  intro ms
  induction ms with
  | nil => intro p e he; exact he
  | cons m tl ih =>
      intro p e he
      rw [runMilestones_cons]
      exact ih (processOne env p m) e (processOne_errors_mono env p m e he)

theorem processOne_no_clients (env : Env) (p : BatchState × BatchResult)
    (m : Milestone) (h1 : env.clientsThrow m.projectId = false)
    (h2 : env.clientsOf m.projectId = []) :
    (processOne env p m).1 = p.1
    ∧ (m.id, "No clients found for project " ++ toString m.projectId)
        ∈ (processOne env p m).2.errors := by
  unfold processOne
  constructor
  · simp [h1, h2]
  · simp only [h1, h2, List.isEmpty_nil, Bool.false_eq_true, if_false,
      if_true]
    exact List.mem_append_right _ (List.mem_singleton_self _)

theorem processOne_preserves_entry (env : Env)
    (p : BatchState × BatchResult) (x m : Milestone)
    (hcase : x.id ≠ m.id ∨ reachesLoop env x = false)
    (h : ∀ r ∈ p.1.milestones, r.id = m.id → r = m) :
    ∀ r ∈ (processOne env p x).1.milestones, r.id = m.id → r = m := by
  intro r hr hid
  rw [processOne_milestones] at hr
  by_cases hb : reachesLoop env x
  · rcases hcase with hne | hf
    · rw [if_pos hb] at hr
      simp only [setCreated, List.mem_map] at hr
      obtain ⟨a, ha, hae⟩ := hr
      by_cases hx : a.id = x.id
      · rw [← hae] at hid
        simp [hx] at hid
        exact absurd hid hne
      · rw [← hae] at hid ⊢
        simp [hx] at hid ⊢
        exact h a ha hid
    · simp [hf] at hb
  · rw [if_neg hb] at hr
    exact h r hr hid

theorem runMilestones_preserves_entry (env : Env) (m : Milestone) :
    ∀ (ms : List Milestone) (p : BatchState × BatchResult),
    (∀ x ∈ ms, x.id ≠ m.id ∨ reachesLoop env x = false) →
    (∀ r ∈ p.1.milestones, r.id = m.id → r = m) →
    ∀ r ∈ (runMilestones env ms p).1.milestones, r.id = m.id → r = m := by
  intro ms
  induction ms with
  | nil => intro p _ h; exact h
  | cons x tl ih =>
      intro p hcase h
      rw [runMilestones_cons]
      exact ih (processOne env p x)
        (fun y hy => hcase y (List.mem_cons_of_mem x hy))
        (processOne_preserves_entry env p x m
          (hcase x (List.mem_cons_self x tl)) h)

theorem mem_insertById (m : Milestone) :
    ∀ (l : List Milestone) (x : Milestone),
    x ∈ insertById m l ↔ x = m ∨ x ∈ l := by
  intro l
  induction l with
  | nil => intro x; simp [insertById]
  | cons y tl ih =>
      intro x
      unfold insertById
      by_cases h : m.id ≤ y.id
      · simp [h]
      · rw [if_neg h]
        simp only [List.mem_cons, ih]
        tauto

theorem mem_sortById (ms : List Milestone) (x : Milestone) :
    x ∈ sortById ms ↔ x ∈ ms := by
  unfold sortById
  induction ms with
  | nil => simp
  | cons y tl ih =>
      simp only [List.foldr_cons, mem_insertById, List.mem_cons, ih]

theorem mem_dueMilestones (env : Env) (st : BatchState) (x : Milestone) :
    x ∈ dueMilestones env st ↔ x ∈ st.milestones ∧ isDue env x = true := by
  unfold dueMilestones
  rw [mem_sortById, List.mem_filter]

/-! ### Claims C3 and C4 -/

/-- Environment for the C3 counterexample: the one due milestone has a
project with zero associated clients. -/
def c3Env : Env :=
  { users := [1], clients := [(2, 1)], projects := [(3, 1)],
    items := [(4, 1)], currencyOf := fun _ => none, today := 300,
    nowTs := 70, remindersFor := fun _ _ => [],
    clientsOf := fun _ => [], clientsThrow := fun _ => false,
    itemOk := fun _ _ => true, itemIdFor := fun _ _ => 4,
    markOk := fun _ => true, renderOk := fun _ => true,
    uploadOk := fun _ => true, patchOk := fun _ => true }

def c3Milestone : Milestone :=
  { id := 1, projectId := 3, userId := 1, serviceType := "Design",
    description := "", amount := 7, milestoneDate := 300,
    status := some MiStatus.pending }

def c3State : BatchState :=
  { milestones := [c3Milestone], db := { rows := [], nextId := 1 },
    blobs := [] }

/-- C3: the claim that every examined milestone ends with status `created`
— including one whose project has zero clients — is false at a concrete
input: the zero-client milestone is counted processed and its error is
recorded, but the loop takes the `continue` before the status update, so it
stays `pending`. -/
theorem c3_counterexample :
    ((processMilestoneInvoices c3Env c3State).2.milestones.map
        (fun r => r.status)) = [some MiStatus.pending]
    ∧ (processMilestoneInvoices c3Env c3State).1.processed = 1
    ∧ (processMilestoneInvoices c3Env c3State).1.failed = 1 := by
  decide

/-- C3 (amended): a due milestone that reaches the per-client loop (clients
resolve to a nonempty list, item resolution succeeds, and the status update
succeeds) ends with status `created` regardless of per-client success or
failure; a due milestone whose project has zero associated clients records
a per-milestone error but keeps its previous status unchanged — it is not
marked `created`. -/
theorem c3_processed_marking (env : Env) (st : BatchState) (m : Milestone) :
    (m ∈ dueMilestones env st → reachesLoop env m = true →
      ∀ r ∈ (processMilestoneInvoices env st).2.milestones, r.id = m.id →
        r.status = some MiStatus.created)
    ∧ ((st.milestones.map (fun r => r.id)).Nodup → m ∈ st.milestones →
        isDue env m = true → env.clientsThrow m.projectId = false →
        env.clientsOf m.projectId = [] →
        (m.id, "No clients found for project " ++ toString m.projectId)
            ∈ (processMilestoneInvoices env st).1.errors
        ∧ ∀ r ∈ (processMilestoneInvoices env st).2.milestones,
            r.id = m.id → r = m) := by
  constructor
  · intro hm hreach
    exact runMilestones_sets_created env (dueMilestones env st)
      (st, emptyResult) m hm hreach
  · intro hnd hmem hdue h1 h2
    have hmdue : m ∈ dueMilestones env st :=
      (mem_dueMilestones env st m).mpr ⟨hmem, hdue⟩
    have hreachf : reachesLoop env m = false := by
      unfold reachesLoop
      simp [h2]
    constructor
    · obtain ⟨l1, l2, hsplit⟩ := List.append_of_mem hmdue
      show (m.id, "No clients found for project " ++ toString m.projectId)
        ∈ (runMilestones env (dueMilestones env st) (st, emptyResult)).2.errors
      rw [hsplit]
      unfold runMilestones
      rw [List.foldl_append, List.foldl_cons]
      exact runMilestones_errors_mono env l2 _ _
        ((processOne_no_clients env _ m h1 h2).2)
    · exact runMilestones_preserves_entry env m (dueMilestones env st)
        (st, emptyResult)
        (fun x hx => by
          by_cases hid : x.id = m.id
          · have hxmem : x ∈ st.milestones :=
              ((mem_dueMilestones env st x).mp hx).1
            have hxm : x = m :=
              List.inj_on_of_nodup_map hnd hxmem hmem hid
            exact Or.inr (hxm ▸ hreachf)
          · exact Or.inl hid)
        (fun r hr hid => List.inj_on_of_nodup_map hnd hr hmem hid)

/-- Environment for the C3 witness: project 3 has one client, project 5 has
none; milestone 1 (project 3) reaches the loop, milestone 2 (project 5)
does not. -/
def c3wEnv : Env :=
  { users := [1], clients := [(2, 1)], projects := [(3, 1), (5, 1)],
    items := [(4, 1)], currencyOf := fun _ => none, today := 300,
    nowTs := 70, remindersFor := fun _ _ => [],
    clientsOf := fun p => if p == 3 then [2] else [],
    clientsThrow := fun _ => false,
    itemOk := fun _ _ => true, itemIdFor := fun _ _ => 4,
    markOk := fun _ => true, renderOk := fun _ => true,
    uploadOk := fun _ => true, patchOk := fun _ => true }

def c3wM1 : Milestone :=
  { id := 1, projectId := 3, userId := 1, serviceType := "Design",
    description := "", amount := 7, milestoneDate := 300,
    status := some MiStatus.pending }

def c3wM2 : Milestone :=
  { id := 2, projectId := 5, userId := 1, serviceType := "Design",
    description := "", amount := 9, milestoneDate := 300,
    status := some MiStatus.pending }

def c3wState : BatchState :=
  { milestones := [c3wM1, c3wM2], db := { rows := [], nextId := 1 },
    blobs := [] }

/-- The status of the milestone with a given id, when present. -/
def statusOfId (ms : List Milestone) (i : Nat) : Option (Option MiStatus) :=
  (ms.find? (fun r => r.id == i)).map (fun r => r.status)

/-- Witness for C3 (amended): after the run, milestone 1 is `created` while
the zero-client milestone 2 recorded its error and is still `pending`. -/
theorem c3_processed_marking_witness :
    statusOfId (processMilestoneInvoices c3wEnv c3wState).2.milestones 1
        = some (some MiStatus.created)
    ∧ (2, "No clients found for project " ++ toString (5 : Nat))
        ∈ (processMilestoneInvoices c3wEnv c3wState).1.errors
    ∧ statusOfId (processMilestoneInvoices c3wEnv c3wState).2.milestones 2
        = some (some MiStatus.pending) := by
  have h1 := (c3_processed_marking c3wEnv c3wState c3wM1).1
    (by decide) (by decide)
  have h2 := (c3_processed_marking c3wEnv c3wState c3wM2).2
    (by decide) (by decide) (by decide) rfl rfl
  refine ⟨?_, h2.1, ?_⟩
  · cases hf : (processMilestoneInvoices c3wEnv c3wState).2.milestones.find?
        (fun r => r.id == 1) with
    | none => exact absurd hf (by decide)
    | some r =>
        have hrmem := List.mem_of_find?_eq_some hf
        have hrid : r.id = 1 := by
          have := List.find?_some hf
          simpa using this
        simp [statusOfId, hf, h1 r hrmem hrid]
  · cases hf : (processMilestoneInvoices c3wEnv c3wState).2.milestones.find?
        (fun r => r.id == 2) with
    | none => exact absurd hf (by decide)
    | some r =>
        have hrmem := List.mem_of_find?_eq_some hf
        have hrid : r.id = 2 := by
          have := List.find?_some hf
          simpa using this
        have hr2 : r = c3wM2 := h2.2 r hrmem hrid
        simp [statusOfId, hf, hr2]
        rfl

/-- Environment and state for the C4 counterexample: the one due milestone
has zero clients, so the first run leaves it `pending`. -/
def c4Env : Env :=
  { users := [1], clients := [(2, 1)], projects := [(3, 1)],
    items := [(4, 1)], currencyOf := fun _ => none, today := 400,
    nowTs := 80, remindersFor := fun _ _ => [],
    clientsOf := fun _ => [], clientsThrow := fun _ => false,
    itemOk := fun _ _ => true, itemIdFor := fun _ _ => 4,
    markOk := fun _ => true, renderOk := fun _ => true,
    uploadOk := fun _ => true, patchOk := fun _ => true }

def c4Milestone : Milestone :=
  { id := 1, projectId := 3, userId := 1, serviceType := "Audit",
    description := "", amount := 3, milestoneDate := 400,
    status := some MiStatus.pending }

def c4State : BatchState :=
  { milestones := [c4Milestone], db := { rows := [], nextId := 1 },
    blobs := [] }

/-- C4: the claim that the second same-day run finds zero pending milestones
is false at a concrete input: a zero-client milestone is still `pending`
after the first run, so the second run finds and processes it again. -/
theorem c4_counterexample :
    (dueMilestones c4Env (processMilestoneInvoices c4Env c4State).2).length
        = 1
    ∧ (processMilestoneInvoices c4Env
        (processMilestoneInvoices c4Env c4State).2).1.processed = 1 := by
  decide

/-- C4 (amended): when every due milestone reaches the per-client loop (at
least one client, item resolution and status update succeed), each due
milestone ends `created`, so the second same-day run finds zero pending
milestones, processes nothing, creates no documents and leaves the state
untouched; a milestone skipped before the loop (for example with zero
clients) instead remains pending and is found again by the second run. -/
theorem c4_second_run_finds_nothing (env : Env) (st : BatchState)
    (hall : ∀ m ∈ dueMilestones env st, reachesLoop env m = true) :
    dueMilestones env (processMilestoneInvoices env st).2 = []
    ∧ processMilestoneInvoices env (processMilestoneInvoices env st).2
        = (emptyResult, (processMilestoneInvoices env st).2) := by
  have hfil : (processMilestoneInvoices env st).2.milestones.filter
      (isDue env) = [] := by
    rw [List.filter_eq_nil_iff]
    intro r hr hdue
    rcases runMilestones_entries env (dueMilestones env st)
        (st, emptyResult) r hr with hc | hmem
    · simp [isDue, hc] at hdue
    · have hrdue : r ∈ dueMilestones env st :=
        (mem_dueMilestones env st r).mpr ⟨hmem, hdue⟩
      have hcreated := runMilestones_sets_created env (dueMilestones env st)
        (st, emptyResult) r hrdue (hall r hrdue) r hr rfl
      simp [isDue, hcreated] at hdue
  have hempty : dueMilestones env (processMilestoneInvoices env st).2 = [] := by
    unfold dueMilestones
    rw [hfil]
    rfl
  refine ⟨hempty, ?_⟩
  show ((runMilestones env (dueMilestones env (processMilestoneInvoices env st).2)
      ((processMilestoneInvoices env st).2, emptyResult)).2,
    (runMilestones env (dueMilestones env (processMilestoneInvoices env st).2)
      ((processMilestoneInvoices env st).2, emptyResult)).1)
    = (emptyResult, (processMilestoneInvoices env st).2)
  rw [hempty]
  rfl

/-- Environment and state for the C4 witness: the one due milestone has a
client and every step succeeds. -/
def c4wEnv : Env :=
  { users := [1], clients := [(2, 1)], projects := [(3, 1)],
    items := [(4, 1)], currencyOf := fun _ => none, today := 400,
    nowTs := 80, remindersFor := fun _ _ => [],
    clientsOf := fun p => if p == 3 then [2] else [],
    clientsThrow := fun _ => false,
    itemOk := fun _ _ => true, itemIdFor := fun _ _ => 4,
    markOk := fun _ => true, renderOk := fun _ => true,
    uploadOk := fun _ => true, patchOk := fun _ => true }

def c4wMilestone : Milestone :=
  { id := 1, projectId := 3, userId := 1, serviceType := "Audit",
    description := "", amount := 3, milestoneDate := 400,
    status := some MiStatus.pending }

def c4wState : BatchState :=
  { milestones := [c4wMilestone], db := { rows := [], nextId := 1 },
    blobs := [] }

/-- Witness for C4 (amended) at a concrete state where the due milestone
reaches the loop. -/
theorem c4_second_run_finds_nothing_witness :
    dueMilestones c4wEnv (processMilestoneInvoices c4wEnv c4wState).2 = []
    ∧ processMilestoneInvoices c4wEnv
        (processMilestoneInvoices c4wEnv c4wState).2
        = (emptyResult, (processMilestoneInvoices c4wEnv c4wState).2) := by
  apply c4_second_run_finds_nothing
  intro m hm
  have hdl : dueMilestones c4wEnv c4wState = [c4wMilestone] := by decide
  rw [hdl] at hm
  simp only [List.mem_singleton] at hm
  subst hm
  decide

/-! ### Claim C2 -/

/-- Environment for C2: referential tables satisfied, render and upload
succeed, but the patch of the artifact filename fails. -/
def c2Env : Env :=
  { users := [1], clients := [(2, 1)], projects := [(3, 1)],
    items := [(4, 1)], currencyOf := fun _ => none, today := 200,
    nowTs := 60, remindersFor := fun _ _ => [],
    clientsOf := fun p => if p == 3 then [2] else [],
    clientsThrow := fun _ => false,
    itemOk := fun _ _ => true, itemIdFor := fun _ _ => 4,
    markOk := fun _ => true, renderOk := fun _ => true,
    uploadOk := fun _ => true, patchOk := fun _ => false }

def c2Milestone : Milestone :=
  { id := 1, projectId := 3, userId := 1, serviceType := "Dev",
    description := "", amount := 10, milestoneDate := 200,
    status := some MiStatus.pending }

def c2State : BatchState :=
  { milestones := [c2Milestone], db := { rows := [], nextId := 1 },
    blobs := [] }

/-- C2: the claim that a failed artifact-filename patch triggers a
compensating delete of the just-uploaded artifact and propagates the error
is false at a concrete input: after the run the uploaded artifact is still
in the store, the result reports the document as created with no error
entry, and the invoice row remains with an empty artifact-filename field
(the last part of the claim — the row is not rolled back — does hold). -/
theorem c2_counterexample :
    (processMilestoneInvoices c2Env c2State).1
        = { processed := 1, created := 1, failed := 0, errors := [] }
    ∧ blobGet (processMilestoneInvoices c2Env c2State).2.blobs
        (BlobPath.invoices 1 "INV-1.pdf") = some 1
    ∧ ((processMilestoneInvoices c2Env c2State).2.db.rows.map
        (fun r => r.invoiceFileName)) = [none] := by
  decide

/-- C2 (amended): in the milestone flow, when the invoice row is created and
rendered and the artifact uploaded but the final patch of the artifact
filename fails, the failure is caught and logged inside the processor: the
just-uploaded artifact is not deleted (it remains in the store), no error
propagates (the result counts the document as created with no error entry
and no failure), and the invoice row remains, identifiable by its empty
artifact-filename field. -/
theorem c2_patch_failure_swallowed (env : Env) (m : Milestone)
    (itemId cid : Nat) (st : BatchState) (res : BatchResult)
    (hok : createChecks env (milestoneInvoiceData m itemId cid) = none)
    (hr : env.renderOk st.db.nextId = true)
    (hu : env.uploadOk st.db.nextId = true)
    (hp : env.patchOk st.db.nextId = false) :
    (processClient env m itemId (st, res) cid).2
        = { res with created := res.created + 1 }
    ∧ blobGet (processClient env m itemId (st, res) cid).1.blobs
        (BlobPath.invoices m.userId
          (("INV-" ++ toString st.db.nextId) ++ ".pdf")) = some st.db.nextId
    ∧ buildInvoiceRow env (milestoneInvoiceData m itemId cid) st.db.nextId
        ∈ (processClient env m itemId (st, res) cid).1.db.rows
    ∧ (buildInvoiceRow env (milestoneInvoiceData m itemId cid)
        st.db.nextId).invoiceFileName = none := by
  have hc : createInvoice env st.db (milestoneInvoiceData m itemId cid)
      = Except.ok
          (buildInvoiceRow env (milestoneInvoiceData m itemId cid) st.db.nextId,
           { rows := st.db.rows
               ++ [buildInvoiceRow env (milestoneInvoiceData m itemId cid)
                     st.db.nextId],
             nextId := st.db.nextId + 1 }) := by
    simp [createInvoice, hok]
  have hid : (buildInvoiceRow env (milestoneInvoiceData m itemId cid)
      st.db.nextId).id = st.db.nextId := rfl
  have hnum : (buildInvoiceRow env (milestoneInvoiceData m itemId cid)
      st.db.nextId).invoiceNumber
      = some ("INV-" ++ toString st.db.nextId) := rfl
  refine ⟨?_, ?_, ?_, rfl⟩
  · simp only [processClient, hc]
  · simp only [processClient, hc, pdfBlock, hid, hnum, hr, hu, hp,
      Option.getD_some, Bool.false_eq_true, if_false, if_true]
    exact blobGet_blobPut_self _ _ _
  · simp only [processClient, hc, pdfBlock, hid, hnum, hr, hu, hp,
      Bool.false_eq_true, if_false, if_true]
    exact List.mem_append_right _ (List.mem_singleton_self _)

/-- Witness for C2 (amended) at the concrete state of the counterexample. -/
theorem c2_patch_failure_swallowed_witness :
    (processClient c2Env c2Milestone 4 (c2State, emptyResult) 2).2
        = { emptyResult with created := 1 }
    ∧ blobGet (processClient c2Env c2Milestone 4 (c2State, emptyResult) 2).1.blobs
        (BlobPath.invoices 1 (("INV-" ++ toString (1 : Nat)) ++ ".pdf"))
        = some 1
    ∧ buildInvoiceRow c2Env (milestoneInvoiceData c2Milestone 4 2) 1
        ∈ (processClient c2Env c2Milestone 4 (c2State, emptyResult) 2).1.db.rows
    ∧ (buildInvoiceRow c2Env (milestoneInvoiceData c2Milestone 4 2)
        1).invoiceFileName = none :=
  c2_patch_failure_swallowed c2Env c2Milestone 4 2 c2State emptyResult
    (by decide) rfl rfl rfl

/-! ### Claim C5 -/

/-- Projection of an invoice row onto the fields unaffected by the PDF
block: everything except the artifact filename and the timestamp its patch
bumps. -/
def stripRow (r : Invoice) : Invoice :=
  { r with invoiceFileName := none, updatedAt := 0 }

/-- The environment with the render, upload and patch fault oracles
replaced. -/
def pdfOracles (env : Env) (f g h : Nat → Bool) : Env :=
  { env with renderOk := f, uploadOk := g, patchOk := h }

theorem updateInvoicePdfFilename_strip (env : Env) (db : InvoiceDB)
    (invoiceId userId : Nat) (fileName : String) :
    ((updateInvoicePdfFilename env db invoiceId userId fileName).2.rows.map
        stripRow = db.rows.map stripRow)
    ∧ (updateInvoicePdfFilename env db invoiceId userId fileName).2.nextId
        = db.nextId := by
  unfold updateInvoicePdfFilename
  by_cases hf : (db.rows.find? (invoiceMatches invoiceId userId)).isSome
  · simp only [hf, if_true]
    constructor
    · rw [List.map_map]
      apply List.map_congr_left
      intro a _
      by_cases hm : invoiceMatches invoiceId userId a
      · simp [Function.comp, hm, stripRow]
      · simp [Function.comp, hm]
    · trivial
  · rw [if_neg hf]
    exact ⟨rfl, rfl⟩

theorem pdfBlock_strip (env : Env) (m : Milestone) (inv : Invoice)
    (db : InvoiceDB) (blobs : BlobStore) :
    ((pdfBlock env m inv db blobs).1.rows.map stripRow
        = db.rows.map stripRow)
    ∧ (pdfBlock env m inv db blobs).1.nextId = db.nextId := by
  simp only [pdfBlock]
  by_cases h1 : env.renderOk inv.id
  · rw [if_pos h1]
    by_cases h2 : env.uploadOk inv.id
    · rw [if_pos h2]
      by_cases h3 : env.patchOk inv.id
      · rw [if_pos h3]
        exact updateInvoicePdfFilename_strip env db inv.id m.userId _
      · rw [if_neg h3]
        exact ⟨rfl, rfl⟩
    · rw [if_neg h2]
      exact ⟨rfl, rfl⟩
  · rw [if_neg h1]
    exact ⟨rfl, rfl⟩

theorem processClient_rel (env : Env) (f g h : Nat → Bool) (m : Milestone)
    (itemId : Nat) (p1 p2 : BatchState × BatchResult) (cid : Nat)
    (hm : p1.1.milestones = p2.1.milestones)
    (hn : p1.1.db.nextId = p2.1.db.nextId)
    (hs : p1.1.db.rows.map stripRow = p2.1.db.rows.map stripRow)
    (hr : p1.2 = p2.2) :
    (processClient (pdfOracles env f g h) m itemId p1 cid).1.milestones
        = (processClient env m itemId p2 cid).1.milestones
    ∧ (processClient (pdfOracles env f g h) m itemId p1 cid).1.db.nextId
        = (processClient env m itemId p2 cid).1.db.nextId
    ∧ (processClient (pdfOracles env f g h) m itemId p1 cid).1.db.rows.map
        stripRow
        = (processClient env m itemId p2 cid).1.db.rows.map stripRow
    ∧ (processClient (pdfOracles env f g h) m itemId p1 cid).2
        = (processClient env m itemId p2 cid).2 := by
  have hco : createInvoice (pdfOracles env f g h) p1.1.db
      (milestoneInvoiceData m itemId cid)
      = createInvoice env p1.1.db (milestoneInvoiceData m itemId cid) := rfl
  cases hc : createChecks env (milestoneInvoiceData m itemId cid) with
  | some e =>
      have h1 : createInvoice env p1.1.db (milestoneInvoiceData m itemId cid)
          = Except.error e := by simp [createInvoice, hc]
      have h2 : createInvoice env p2.1.db (milestoneInvoiceData m itemId cid)
          = Except.error e := by simp [createInvoice, hc]
      simp only [processClient, hco, h1, h2]
      exact ⟨hm, hn, hs, by rw [hr]⟩
  | none =>
      have h1 : createInvoice env p1.1.db (milestoneInvoiceData m itemId cid)
          = Except.ok
              (buildInvoiceRow env (milestoneInvoiceData m itemId cid)
                 p1.1.db.nextId,
               { rows := p1.1.db.rows
                   ++ [buildInvoiceRow env (milestoneInvoiceData m itemId cid)
                         p1.1.db.nextId],
                 nextId := p1.1.db.nextId + 1 }) := by
        simp [createInvoice, hc]
      have h2 : createInvoice env p2.1.db (milestoneInvoiceData m itemId cid)
          = Except.ok
              (buildInvoiceRow env (milestoneInvoiceData m itemId cid)
                 p2.1.db.nextId,
               { rows := p2.1.db.rows
                   ++ [buildInvoiceRow env (milestoneInvoiceData m itemId cid)
                         p2.1.db.nextId],
                 nextId := p2.1.db.nextId + 1 }) := by
        simp [createInvoice, hc]
      simp only [processClient, hco, h1, h2]
      refine ⟨hm, ?_, ?_, by rw [hr]⟩
      · rw [(pdfBlock_strip _ _ _ _ _).2, (pdfBlock_strip _ _ _ _ _).2]
        show p1.1.db.nextId + 1 = p2.1.db.nextId + 1
        rw [hn]
      · rw [(pdfBlock_strip _ _ _ _ _).1, (pdfBlock_strip _ _ _ _ _).1]
        show (p1.1.db.rows
            ++ [buildInvoiceRow env (milestoneInvoiceData m itemId cid)
                  p1.1.db.nextId]).map stripRow
          = (p2.1.db.rows
            ++ [buildInvoiceRow env (milestoneInvoiceData m itemId cid)
                  p2.1.db.nextId]).map stripRow
        rw [List.map_append, List.map_append, hs, hn]

theorem foldl_processClient_rel (env : Env) (f g h : Nat → Bool)
    (m : Milestone) (itemId : Nat) :
    ∀ (cids : List Nat) (p1 p2 : BatchState × BatchResult),
    p1.1.milestones = p2.1.milestones →
    p1.1.db.nextId = p2.1.db.nextId →
    p1.1.db.rows.map stripRow = p2.1.db.rows.map stripRow →
    p1.2 = p2.2 →
    ((cids.foldl (processClient (pdfOracles env f g h) m itemId) p1).1.milestones
        = (cids.foldl (processClient env m itemId) p2).1.milestones)
    ∧ ((cids.foldl (processClient (pdfOracles env f g h) m itemId) p1).1.db.nextId
        = (cids.foldl (processClient env m itemId) p2).1.db.nextId)
    ∧ ((cids.foldl (processClient (pdfOracles env f g h) m itemId) p1).1.db.rows.map
          stripRow
        = (cids.foldl (processClient env m itemId) p2).1.db.rows.map stripRow)
    ∧ ((cids.foldl (processClient (pdfOracles env f g h) m itemId) p1).2
        = (cids.foldl (processClient env m itemId) p2).2) := by
  intro cids
  induction cids with
  | nil => intro p1 p2 hm hn hs hr; exact ⟨hm, hn, hs, hr⟩
  | cons c tl ih =>
      intro p1 p2 hm hn hs hr
      rw [List.foldl_cons, List.foldl_cons]
      have hstep := processClient_rel env f g h m itemId p1 p2 c hm hn hs hr
      exact ih (processClient (pdfOracles env f g h) m itemId p1 c)
        (processClient env m itemId p2 c)
        hstep.1 hstep.2.1 hstep.2.2.1 hstep.2.2.2

theorem processOne_rel (env : Env) (f g h : Nat → Bool)
    (p1 p2 : BatchState × BatchResult) (m : Milestone)
    (hm : p1.1.milestones = p2.1.milestones)
    (hn : p1.1.db.nextId = p2.1.db.nextId)
    (hs : p1.1.db.rows.map stripRow = p2.1.db.rows.map stripRow)
    (hr : p1.2 = p2.2) :
    (processOne (pdfOracles env f g h) p1 m).1.milestones
        = (processOne env p2 m).1.milestones
    ∧ (processOne (pdfOracles env f g h) p1 m).1.db.nextId
        = (processOne env p2 m).1.db.nextId
    ∧ (processOne (pdfOracles env f g h) p1 m).1.db.rows.map stripRow
        = (processOne env p2 m).1.db.rows.map stripRow
    ∧ (processOne (pdfOracles env f g h) p1 m).2
        = (processOne env p2 m).2 := by
  have e1 : (pdfOracles env f g h).clientsThrow = env.clientsThrow := rfl
  have e2 : (pdfOracles env f g h).clientsOf = env.clientsOf := rfl
  have e3 : (pdfOracles env f g h).itemOk = env.itemOk := rfl
  have e4 : (pdfOracles env f g h).itemIdFor = env.itemIdFor := rfl
  have e5 : (pdfOracles env f g h).markOk = env.markOk := rfl
  simp only [processOne, e1, e2, e3, e4, e5]
  by_cases h1 : env.clientsThrow m.projectId
  · simp only [if_pos h1]
    exact ⟨hm, hn, hs, by rw [hr]⟩
  · rw [if_neg h1, if_neg h1]
    by_cases h2 : (env.clientsOf m.projectId).isEmpty
    · simp only [if_pos h2]
      exact ⟨hm, hn, hs, by rw [hr]⟩
    · rw [if_neg h2, if_neg h2]
      by_cases h3 : env.itemOk m.userId m.serviceType
      · have h3b : ¬((!env.itemOk m.userId m.serviceType) = true) := by
          simp [h3]
        rw [if_neg h3b, if_neg h3b]
        have hfold := foldl_processClient_rel env f g h m
          (env.itemIdFor m.userId m.serviceType) (env.clientsOf m.projectId)
          (p1.1, { processed := p1.2.processed + 1, created := p1.2.created,
                   failed := p1.2.failed, errors := p1.2.errors })
          (p2.1, { processed := p2.2.processed + 1, created := p2.2.created,
                   failed := p2.2.failed, errors := p2.2.errors })
          hm hn hs (by rw [hr])
        by_cases h4 : env.markOk m.id
        · simp only [if_pos h4]
          exact ⟨by rw [hfold.1], hfold.2.1, hfold.2.2.1, hfold.2.2.2⟩
        · rw [if_neg h4, if_neg h4]
          exact ⟨hfold.1, hfold.2.1, hfold.2.2.1, by rw [hfold.2.2.2]⟩
      · have h3b : (!env.itemOk m.userId m.serviceType) = true := by
          simp [h3]
        simp only [if_pos h3b]
        exact ⟨hm, hn, hs, by rw [hr]⟩

theorem runMilestones_rel (env : Env) (f g h : Nat → Bool) :
    ∀ (ms : List Milestone) (p1 p2 : BatchState × BatchResult),
    p1.1.milestones = p2.1.milestones →
    p1.1.db.nextId = p2.1.db.nextId →
    p1.1.db.rows.map stripRow = p2.1.db.rows.map stripRow →
    p1.2 = p2.2 →
    ((runMilestones (pdfOracles env f g h) ms p1).1.milestones
        = (runMilestones env ms p2).1.milestones)
    ∧ ((runMilestones (pdfOracles env f g h) ms p1).1.db.nextId
        = (runMilestones env ms p2).1.db.nextId)
    ∧ ((runMilestones (pdfOracles env f g h) ms p1).1.db.rows.map stripRow
        = (runMilestones env ms p2).1.db.rows.map stripRow)
    ∧ ((runMilestones (pdfOracles env f g h) ms p1).2
        = (runMilestones env ms p2).2) := by
  intro ms
  induction ms with
  | nil => intro p1 p2 hm hn hs hr; exact ⟨hm, hn, hs, hr⟩
  | cons m tl ih =>
      intro p1 p2 hm hn hs hr
      rw [runMilestones_cons, runMilestones_cons]
      have hstep := processOne_rel env f g h p1 p2 m hm hn hs hr
      exact ih (processOne (pdfOracles env f g h) p1 m) (processOne env p2 m)
        hstep.1 hstep.2.1 hstep.2.2.1 hstep.2.2.2

/-- C5 (amended): a renderer, upload or filename-patch failure for a client
is caught and does not stop processing of the remaining clients or
milestones, but it is not recorded in the returned error list and the
document still counts as created: the whole batch result (processed,
created, failed and the error list), the milestone statuses, the id
sequence and the invoice rows up to the artifact-filename and updatedAt
fields are identical no matter what the render, upload and patch fault
oracles are.  Only record-creation failures, zero-client milestones, item
failures and milestone-level failures produce error entries. -/
theorem c5_pdf_failures_invisible (env : Env) (f g h : Nat → Bool)
    (st : BatchState) :
    (processMilestoneInvoices (pdfOracles env f g h) st).1
        = (processMilestoneInvoices env st).1
    ∧ (processMilestoneInvoices (pdfOracles env f g h) st).2.milestones
        = (processMilestoneInvoices env st).2.milestones
    ∧ (processMilestoneInvoices (pdfOracles env f g h) st).2.db.nextId
        = (processMilestoneInvoices env st).2.db.nextId
    ∧ ((processMilestoneInvoices (pdfOracles env f g h) st).2.db.rows.map
        stripRow)
        = ((processMilestoneInvoices env st).2.db.rows.map stripRow) := by
  have hrel := runMilestones_rel env f g h (dueMilestones env st)
    (st, emptyResult) (st, emptyResult) rfl rfl rfl rfl
  exact ⟨hrel.2.2.2, hrel.1, hrel.2.1, hrel.2.2.1⟩

/-- Environment for the C5 counterexample: two clients; rendering fails for
the first invoice only. -/
def c5Env : Env :=
  { users := [1], clients := [(2, 1), (5, 1)], projects := [(3, 1)],
    items := [(4, 1)], currencyOf := fun _ => none, today := 500,
    nowTs := 90, remindersFor := fun _ _ => [],
    clientsOf := fun p => if p == 3 then [2, 5] else [],
    clientsThrow := fun _ => false,
    itemOk := fun _ _ => true, itemIdFor := fun _ _ => 4,
    markOk := fun _ => true, renderOk := fun id => !(id == 1),
    uploadOk := fun _ => true, patchOk := fun _ => true }

def c5Milestone : Milestone :=
  { id := 1, projectId := 3, userId := 1, serviceType := "Dev",
    description := "", amount := 10, milestoneDate := 500,
    status := some MiStatus.pending }

def c5State : BatchState :=
  { milestones := [c5Milestone], db := { rows := [], nextId := 1 },
    blobs := [] }

/-- C5: the claim that a renderer failure for one client is recorded as an
entry in the returned per-unit error list is false at a concrete input: the
first client's render fails, yet the result reports two created documents,
zero failures and an empty error list (processing of the second client did
continue, and only the second invoice got its artifact). -/
theorem c5_counterexample :
    (processMilestoneInvoices c5Env c5State).1
        = { processed := 1, created := 2, failed := 0, errors := [] }
    ∧ ((processMilestoneInvoices c5Env c5State).2.db.rows.map
        (fun r => r.invoiceFileName)) = [none, some "INV-2.pdf"] := by
  decide

end Mudhro
